import Mathlib

/-
Verification of the Envoy proxy configuration generator
(pilot/proxy/envoy/config.go) against its natural-language specification.

The Go source is shallowly embedded: pure data structures become Lean
structures, imperative loops become folds or structural recursion, and the
Go (value, error) convention becomes Except.  Addresses of the form
"tcp://<ip>:<port>" are represented structurally as an (ip, port) pair;
since IP strings contain no colon, this representation is in bijection
with the Go address strings.

Definitions whose Go source is not part of the analysed tree (the model
package and the envoy resource helpers) are modelled from the
specification; each such definition carries a doc comment starting with
"Modelled from the spec:".
-/

namespace IstioEnvoy

/-- Application protocol of a service port (model.Protocol). -/
inductive Protocol where
  | http
  | http2
  | grpc
  | https
  | tcp
  | mongo
  | redis
  | udp
deriving DecidableEq, Repr

/-- Port-level authentication policy (proxyconfig.AuthenticationPolicy).
The spec's ENABLE corresponds to `mutualTLS`, DISABLE to `none`, and the
inherit-from-mesh value to `inherit`. -/
inductive AuthenticationPolicy where
  | none
  | mutualTLS
  | inherit
deriving DecidableEq, Repr

/-- Mesh-wide authentication policy (proxyconfig.MeshConfig_AuthPolicy);
this enum has exactly the two values NONE and MUTUAL_TLS. -/
inductive MeshAuthPolicy where
  | none
  | mutualTLS
deriving DecidableEq, Repr

/-- Proxy role (proxy.NodeType). -/
inductive NodeType where
  | sidecar
  | ingress
  | router
deriving DecidableEq, Repr

/-- A service port (model.Port). -/
structure Port where
  name : String
  port : Nat
  protocol : Protocol
  authenticationPolicy : AuthenticationPolicy := AuthenticationPolicy.inherit
deriving DecidableEq, Repr

/-- A registry service (model.Service).  `External` holds iff the external
name is non-empty. -/
structure Service where
  hostname : String
  address : String := ""
  externalName : String := ""
  ports : List Port := []
  loadBalancingDisabled : Bool := false
deriving DecidableEq, Repr

/-- Whether the service is an external (ExternalName) service. -/
def Service.External (s : Service) : Bool :=
  s.externalName ≠ ""

/-- Proxy identity (proxy.Node). -/
structure Node where
  nodeType : NodeType
  ipAddress : String := ""
  id : String := ""
  domain : String := ""
deriving DecidableEq, Repr

/-- Mesh configuration (proxyconfig.MeshConfig); only the fields consulted
by the embedded functions are retained. -/
structure MeshConfig where
  authPolicy : MeshAuthPolicy := MeshAuthPolicy.none
  mixerAddress : String := ""
  proxyListenPort : Nat := 15001
  proxyHttpPort : Nat := 0
  connectTimeoutMS : Nat := 1000
  rdsRefreshDelayMS : Nat := 10
  accessLogFile : String := ""
  enableTracing : Bool := false
  disablePolicyChecks : Bool := false
deriving DecidableEq, Repr

/-- A network endpoint of a service instance (model.NetworkEndpoint). -/
structure Endpoint where
  address : String
  port : Nat
  servicePort : Port
deriving DecidableEq, Repr

/-- A service instance (model.ServiceInstance). -/
structure ServiceInstance where
  endpoint : Endpoint
  service : Service
  labels : List (String × String) := []
deriving DecidableEq, Repr

/-- Match conditions of a route rule.  Modelled from the spec: a rule match
consists of a URI prefix, an exact URI path, and header conditions; a route
with none of these (prefix "/", no path, no headers) is a catch-all. -/
structure MatchCondition where
  prefixMatch : String := "/"
  pathMatch : Option String := Option.none
  headerMatch : List (String × String) := []
deriving DecidableEq, Repr

/-- A routing rule (proxyconfig.RouteRule).  Modelled from the spec: a rule
names a destination, carries a precedence and a store key used for sorting,
and optionally match conditions. -/
structure RouteRule where
  destination : String
  key : String := ""
  precedence : Nat := 0
  matchCondition : Option MatchCondition := Option.none
deriving DecidableEq, Repr

/-- A port declared by an egress rule. -/
structure EgressPort where
  port : Nat
  protocol : String
deriving DecidableEq, Repr

/-- An egress rule (proxyconfig.EgressRule). -/
structure EgressRule where
  destinationService : String
  ports : List EgressPort := []
deriving DecidableEq, Repr

/-- Read-only view of the config store (model.IstioConfigStore).  Modelled
from the spec: it returns deterministic lists of route rules and egress
rules. -/
structure IstioConfigStore where
  routeRules : List RouteRule := []
  egressRules : List EgressRule := []
deriving DecidableEq, Repr

/-- Modelled from the spec: RouteRules selects the rules applicable to a
destination hostname. -/
def IstioConfigStore.routeRulesFor (store : IstioConfigStore)
    (hostname : String) : List RouteRule :=
  store.routeRules.filter (fun r => r.destination == hostname)

/-- Modelled from the spec: RouteRulesByDestination selects the rules whose
destination is one of the given instances' services. -/
def IstioConfigStore.routeRulesByDestination (store : IstioConfigStore)
    (instances : List ServiceInstance) : List RouteRule :=
  store.routeRules.filter
    (fun r => instances.any (fun i => i.service.hostname == r.destination))

/-- Structural lexicographic comparison of character lists; on UTF-8
strings this coincides with the Go byte-wise string order. -/
def charListLt : List Char → List Char → Bool
  | [], [] => false
  | [], _ :: _ => true
  | _ :: _, [] => false
  | a :: as, b :: bs =>
    if a.toNat < b.toNat then true
    else if b.toNat < a.toNat then false
    else charListLt as bs

/-- Strict lexicographic string order (the Go < on strings). -/
def strLt (a b : String) : Bool :=
  charListLt a.data b.data

/-- Non-strict lexicographic string order (the Go <= on strings). -/
def strLe (a b : String) : Bool :=
  strLt a b || a == b

/-- Insertion of an element into a sorted list, keeping it before the
first element it compares at-most-equal to (the stable insertion step). -/
def insertSorted {α : Type} (le : α → α → Bool) (x : α) : List α → List α
  | [] => [x]
  | y :: ys => if le x y then x :: y :: ys else y :: insertSorted le x ys

/-- Structurally recursive stable insertion sort; the embedding's stand-in
for the Go sort calls. -/
def insertionSort {α : Type} (le : α → α → Bool) : List α → List α
  | [] => []
  | x :: xs => insertSorted le x (insertionSort le xs)

/-- Modelled from the spec: rules sort by descending precedence, then by
ascending store key, to yield deterministic output. -/
def sortRouteRules (rules : List RouteRule) : List RouteRule :=
  insertionSort (fun a b =>
    decide (b.precedence < a.precedence) ||
      (a.precedence == b.precedence && strLe a.key b.key)) rules

/-- Modelled from the spec: the proxy's identifier limit for cluster names
(MaxClusterNameLength in the envoy resource definitions). -/
def MaxClusterNameLength : Nat := 189

/-- Reduction modulo 2^32, the word size of SHA-1 (crypto/sha1). -/
def w32 (n : Nat) : Nat := n % 2 ^ 32

/-- Left rotation of a 32-bit word by k bits. -/
def rotl (k n : Nat) : Nat :=
  ((n % 2 ^ (32 - k)) * 2 ^ k + n / 2 ^ (32 - k)) % 2 ^ 32

/-- UTF-8 encoding of a character, as the Go string byte view. -/
def utf8Bytes (c : Char) : List Nat :=
  let n := c.toNat
  if n < 128 then [n]
  else if n < 2048 then [192 + n / 64, 128 + n % 64]
  else if n < 65536 then [224 + n / 4096, 128 + n / 64 % 64, 128 + n % 64]
  else [240 + n / 262144, 128 + n / 4096 % 64, 128 + n / 64 % 64, 128 + n % 64]

/-- The bytes of a string, in UTF-8 as Go sees them. -/
def strBytes (s : String) : List Nat :=
  s.data.flatMap utf8Bytes

/-- SHA-1 round function. -/
def sha1F (t b c d : Nat) : Nat :=
  if t < 20 then (b &&& c) ||| ((4294967295 - b) &&& d)
  else if t < 40 then b ^^^ c ^^^ d
  else if t < 60 then (b &&& c) ||| (b &&& d) ||| (c &&& d)
  else b ^^^ c ^^^ d

/-- SHA-1 round constants. -/
def sha1K (t : Nat) : Nat :=
  if t < 20 then 1518500249
  else if t < 40 then 1859775393
  else if t < 60 then 2400959708
  else 3395469782

/-- The five-word state of SHA-1. -/
structure SHA1State where
  h0 : Nat
  h1 : Nat
  h2 : Nat
  h3 : Nat
  h4 : Nat
deriving DecidableEq, Repr

/-- Message-schedule expansion of a 16-word chunk to 80 words. -/
def sha1Schedule (chunk : List Nat) : List Nat :=
  (List.range 64).foldl
    (fun ws _ =>
      ws ++ [rotl 1 ((ws.getD (ws.length - 3) 0) ^^^ (ws.getD (ws.length - 8) 0) ^^^
        (ws.getD (ws.length - 14) 0) ^^^ (ws.getD (ws.length - 16) 0))])
    chunk

/-- SHA-1 compression of one 16-word chunk into the running state. -/
def sha1Compress (st : SHA1State) (chunk : List Nat) : SHA1State :=
  let ws := sha1Schedule chunk
  let r := (List.range 80).foldl
    (fun p t =>
      match p with
      | (a, b, c, d, e) =>
        let temp := w32 (rotl 5 a + sha1F t b c d + e + sha1K t + ws.getD t 0)
        (temp, a, rotl 30 b, c, d))
    (st.h0, st.h1, st.h2, st.h3, st.h4)
  match r with
  | (a, b, c, d, e) =>
    ⟨w32 (st.h0 + a), w32 (st.h1 + b), w32 (st.h2 + c), w32 (st.h3 + d), w32 (st.h4 + e)⟩

/-- SHA-1 padding: append 0x80, zeros to 56 mod 64 bytes, then the 64-bit
big-endian bit length. -/
def sha1Pad (msg : List Nat) : List Nat :=
  let len := msg.length
  let k := (119 - len % 64) % 64
  let bitLen := len * 8
  msg ++ [128] ++ List.replicate k 0 ++
    (List.range 8).map (fun i => bitLen / 2 ^ (8 * (7 - i)) % 256)

/-- Splits a byte list into 64-byte chunks. -/
def toChunks (l : List Nat) : List (List Nat) :=
  if h : l = [] then []
  else l.take 64 :: toChunks (l.drop 64)
termination_by l.length
decreasing_by
  simp only [List.length_drop]
  have : 0 < l.length := List.length_pos.mpr h
  omega

/-- Big-endian 32-bit words of a 64-byte chunk. -/
def bytesToWords16 (chunk : List Nat) : List Nat :=
  (List.range 16).map (fun i =>
    chunk.getD (4 * i) 0 * 16777216 + chunk.getD (4 * i + 1) 0 * 65536 +
      chunk.getD (4 * i + 2) 0 * 256 + chunk.getD (4 * i + 3) 0)

/-- SHA-1 digest of a string as five 32-bit words. -/
def sha1Words (s : String) : SHA1State :=
  (toChunks (sha1Pad (strBytes s))).foldl
    (fun st chunk => sha1Compress st (bytesToWords16 chunk))
    ⟨1732584193, 4023233417, 2562383102, 271733878, 3285377520⟩

/-- Lower-case hexadecimal digit. -/
def hexDigit (n : Nat) : Char :=
  if n < 10 then Char.ofNat (48 + n) else Char.ofNat (87 + n)

/-- The eight hexadecimal digits of a 32-bit word, most significant first. -/
def hexWord (w : Nat) : List Char :=
  [hexDigit (w / 2 ^ 28 % 16), hexDigit (w / 2 ^ 24 % 16),
   hexDigit (w / 2 ^ 20 % 16), hexDigit (w / 2 ^ 16 % 16),
   hexDigit (w / 2 ^ 12 % 16), hexDigit (w / 2 ^ 8 % 16),
   hexDigit (w / 2 ^ 4 % 16), hexDigit (w % 16)]

/-- The 40-character hexadecimal SHA-1 digest of a string, as produced by
fmt.Sprintf with the x verb on a sha1.Sum value. -/
def sha1Hex (s : String) : String :=
  let st := sha1Words s
  String.mk (hexWord st.h0 ++ hexWord st.h1 ++ hexWord st.h2 ++
    hexWord st.h3 ++ hexWord st.h4)

/-- truncateClusterName keeps names of at most MaxClusterNameLength
characters and otherwise truncates to MaxClusterNameLength - 40 characters
followed by the hex SHA-1 of the whole name (config.go). -/
def truncateClusterName (name : String) : String :=
  if MaxClusterNameLength < name.length then
    String.mk (name.data.take (MaxClusterNameLength - 40)) ++ sha1Hex name
  else name

/-- Wildcard listen address (WildcardAddress). -/
def WildcardAddress : String := "0.0.0.0"

/-- Localhost listen address (LocalhostAddress). -/
def LocalhostAddress : String := "127.0.0.1"

/-- Name of the virtual catch-all listener (VirtualListenerName). -/
def VirtualListenerName : String := "virtual"

/-- Route-config name designating all routes for RDS (RDSAll). -/
def RDSAll : String := "ALL"

/-- Name of the RDS discovery cluster (RDSName). -/
def RDSName : String := "rds"

/-- Trace operation for egress-direction listeners. -/
def EgressTraceOperation : String := "egress"

/-- Trace operation for ingress-direction listeners. -/
def IngressTraceOperation : String := "ingress"

/-- Filter placement type "decoder". -/
def decoder : String := "decoder"

/-- Filter placement type "read". -/
def read : String := "read"

/-- Filter placement type "both". -/
def both : String := "both"

/-- Codec type "auto". -/
def auto : String := "auto"

/-- Name of the HTTP router filter. -/
def router : String := "router"

/-- Name of the CORS HTTP filter. -/
def CORSFilter : String := "cors"

/-- Name of the fault-injection HTTP filter. -/
def FaultFilter : String := "fault"

/-- Name of the mixer filter. -/
def MixerFilter : String := "mixer"

/-- Name of the HTTP connection manager network filter. -/
def HTTPConnectionManager : String := "http_connection_manager"

/-- Name of the TCP proxy network filter. -/
def TCPProxyFilter : String := "tcp_proxy"

/-- Name of the Mongo proxy network filter. -/
def MongoProxyFilter : String := "mongo_proxy"

/-- Name of the Redis proxy network filter. -/
def RedisProxyFilter : String := "redis_proxy"

/-- Default Redis operation timeout in milliseconds (RedisDefaultOpTimeout
of 30s, divided by time.Millisecond). -/
def redisOpTimeoutMS : Nat := 30000

/-- Path of the sidecar authentication certificates (proxy.AuthCertsPath). -/
def AuthCertsPath : String := "/etc/certs/"

/-- A generated cluster (the envoy Cluster record).  Modelled from the
spec: clusters carry a name, a discovery type, an SDS service name and a
connect timeout. -/
structure Cluster where
  name : String
  ctype : String := ""
  serviceName : String := ""
  lbType : String := ""
  connectTimeoutMS : Nat := 0
deriving DecidableEq, Repr

/-- Modelled from the spec: the service key `hostname|portName` identifying
a service port with an empty label subset. -/
def serviceKey (hostname : String) (sp : Port) : String :=
  hostname ++ ("|") ++ sp.name

/-- Modelled from the spec: an outbound SDS cluster for a service port,
named out.(service key) and truncated deterministically. -/
def buildOutboundCluster (hostname : String) (sp : Port) : Cluster :=
  { name := truncateClusterName (("out.") ++ serviceKey hostname sp),
    ctype := "sds",
    serviceName := serviceKey hostname sp,
    lbType := "round_robin" }

/-- Modelled from the spec: an inbound static cluster named in.(port) with
one host at 127.0.0.1 on the endpoint port. -/
def buildInboundCluster (port : Nat) (protocol : Protocol) (timeoutMS : Nat) : Cluster :=
  { name := ("in.") ++ toString port,
    ctype := "static",
    lbType := "round_robin",
    connectTimeoutMS := timeoutMS }

/-- Modelled from the spec: an original-destination passthrough cluster. -/
def buildOriginalDSTCluster (name : String) (timeoutMS : Nat) : Cluster :=
  { name := truncateClusterName name,
    ctype := "original_dst_lb",
    lbType := "original_dst_lb",
    connectTimeoutMS := timeoutMS }

/-- A TCP route (the envoy TCPRoute record): destination cluster name and
destination IP match list. -/
structure TCPRoute where
  cluster : String
  destinationIPList : List String := []
deriving DecidableEq, Repr

/-- Modelled from the spec: a TCP route forwarding to the cluster,
optionally matching a destination address list. -/
def buildTCPRoute (c : Cluster) (addresses : List String) : TCPRoute :=
  { cluster := c.name, destinationIPList := addresses }

/-- A TCP route table (TCPRouteConfig). -/
structure TCPRouteConfig where
  routes : List TCPRoute
deriving DecidableEq, Repr

/-- An HTTP route (the envoy HTTPRoute record).  The match condition
fields mirror the rule match; `clustersRef` records the clusters the route
references for cluster collection. -/
structure HTTPRoute where
  prefixMatch : String := "/"
  pathMatch : Option String := Option.none
  headerMatch : List (String × String) := []
  cluster : String := ""
  faultCluster : Option String := Option.none
  opaqueMixer : Bool := false
  clustersRef : List Cluster := []
deriving DecidableEq, Repr

/-- Modelled from the spec: a route is a catch-all when it carries no
match conditions. -/
def HTTPRoute.CatchAll (r : HTTPRoute) : Bool :=
  r.pathMatch.isNone && r.prefixMatch == "/" && r.headerMatch.isEmpty

/-- Modelled from the spec: the synthetic default route to a cluster, with
no match conditions beyond the universal prefix. -/
def buildDefaultRoute (c : Cluster) : HTTPRoute :=
  { cluster := c.name, clustersRef := [c] }

/-- Modelled from the spec: translation of one route rule for a service
port into an HTTP route; the rule match fields are copied verbatim and the
destination cluster is the outbound cluster of the service port. -/
def buildHTTPRoute (rule : RouteRule) (svc : Service) (sp : Port) : HTTPRoute :=
  let c := buildOutboundCluster svc.hostname sp
  match rule.matchCondition with
  | Option.none => { cluster := c.name, clustersRef := [c] }
  | Option.some m =>
    { prefixMatch := m.prefixMatch, pathMatch := m.pathMatch,
      headerMatch := m.headerMatch, cluster := c.name, clustersRef := [c] }

/-- A virtual host (the envoy VirtualHost record). -/
structure VirtualHost where
  name : String
  domains : List String := []
  routes : List HTTPRoute := []
deriving DecidableEq, Repr

/-- An HTTP route configuration: the virtual hosts of one listener port. -/
structure HTTPRouteConfig where
  virtualHosts : List VirtualHost := []
deriving DecidableEq, Repr

/-- The clusters referenced by the routes of a route configuration. -/
def HTTPRouteConfig.clustersOf (rc : HTTPRouteConfig) : List Cluster :=
  rc.virtualHosts.flatMap (fun vh => vh.routes.flatMap (fun r => r.clustersRef))

/-- HTTP route configurations indexed by listener port, kept as an
association list in first-insertion order (the Go map is iterated
nondeterministically and the result normalized; the embedding fixes
insertion order). -/
abbrev HTTPRouteConfigs := List (Nat × HTTPRouteConfig)

/-- EnsurePort followed by appending a virtual host to the port's config. -/
def ensurePortAppend (cfgs : HTTPRouteConfigs) (port : Nat) (vh : VirtualHost) :
    HTTPRouteConfigs :=
  if cfgs.any (fun pc => pc.1 == port) then
    cfgs.map (fun pc =>
      if pc.1 == port then (pc.1, ⟨pc.2.virtualHosts ++ [vh]⟩) else pc)
  else cfgs ++ [(port, ⟨[vh]⟩)]

/-- The clusters referenced by all route configurations. -/
def clustersOfConfigs (cfgs : HTTPRouteConfigs) : List Cluster :=
  cfgs.flatMap (fun pc => pc.2.clustersOf)

/-- Modelled from the spec: normalization sorts route configs by port and
virtual hosts by name. -/
def normalizeRouteConfigs (cfgs : HTTPRouteConfigs) : HTTPRouteConfigs :=
  insertionSort (fun a b => a.1 ≤ b.1)
    (cfgs.map (fun pc =>
      (pc.1, (⟨insertionSort (fun a b => decide (a.name ≤ b.name)) pc.2.virtualHosts⟩
        : HTTPRouteConfig))))

/-- Configuration payload of an HTTP filter, as a tagged variant. -/
inductive HTTPFilterKind where
  | routerCfg
  | corsCfg
  | mixerCfg
  | faultCfg (cluster : String)
deriving DecidableEq, Repr

/-- An HTTP filter of the connection manager chain. -/
structure HTTPFilter where
  ftype : String := ""
  name : String
  kind : HTTPFilterKind
deriving DecidableEq, Repr

/-- RDS reference of an HTTP connection manager. -/
structure RDSConfig where
  cluster : String
  routeConfigName : String
  refreshDelayMS : Nat
deriving DecidableEq, Repr

/-- HTTP connection manager configuration (HTTPFilterConfig). -/
structure HTTPFilterConfig where
  codecType : String := ""
  useRemoteAddress : Bool := false
  statName : String := ""
  filters : List HTTPFilter := []
  accessLog : List String := []
  generateRequestID : Bool := false
  tracingOperation : Option String := Option.none
  rds : Option RDSConfig := Option.none
  routeConfig : Option HTTPRouteConfig := Option.none
deriving DecidableEq, Repr

/-- Configuration payload of a network filter, as a tagged variant. -/
inductive NetworkFilterKind where
  | tcpProxyCfg (statName : String) (routeConfig : TCPRouteConfig)
  | mongoProxyCfg (statName : String)
  | redisProxyCfg (clusterName : String) (statName : String) (opTimeoutMS : Nat)
  | httpConnMgrCfg (cfg : HTTPFilterConfig)
  | mixerTCPCfg
deriving DecidableEq, Repr

/-- A network filter of a listener. -/
structure NetworkFilter where
  ftype : String := ""
  name : String
  kind : NetworkFilterKind
deriving DecidableEq, Repr

/-- Server-side SSL context attached to an inbound listener. -/
structure ListenerSSLContext where
  certsPath : String
deriving DecidableEq, Repr

/-- Modelled from the spec: the listener SSL context loads server certs
and the client CA from the certificate path. -/
def buildListenerSSLContext (path : String) : ListenerSSLContext :=
  { certsPath := path }

/-- A listener.  The Go Address string "tcp://ip:port" is kept
structurally as the `ip` and `port` fields. -/
structure Listener where
  name : String
  ip : String
  port : Nat
  filters : List NetworkFilter := []
  bindToPort : Bool := false
  useOriginalDst : Bool := false
  sslContext : Option ListenerSSLContext := Option.none
deriving DecidableEq, Repr

/-- GetByAddress finds a listener with the given address (resources). -/
def getByAddress (ls : List Listener) (ip : String) (port : Nat) :
    Option Listener :=
  ls.find? (fun l => l.ip == ip && l.port == port)

/-- Removes listeners whose address already occurred, keeping the first
occurrence; `seen` holds the addresses already taken. -/
def dedupListeners : List Listener → List (String × Nat) → List Listener
  | [], _ => []
  | l :: rest, seen =>
    if (l.ip, l.port) ∈ seen then dedupListeners rest seen
    else l :: dedupListeners rest ((l.ip, l.port) :: seen)

/-- Modelled from the spec: listener normalization deduplicates by
(address, port), keeping the first occurrence, and sorts ascending by
(address, port). -/
def normalizeListeners (ls : List Listener) : List Listener :=
  insertionSort
    (fun a b => strLt a.ip b.ip || (a.ip == b.ip && a.port ≤ b.port))
    (dedupListeners ls [])

/-- Modelled from the spec: cluster normalization deduplicates by name,
keeping the first occurrence, and sorts ascending by name. -/
def normalizeClusters (cs : List Cluster) : List Cluster :=
  insertionSort (fun a b => strLe a.name b.name)
    (cs.foldl (fun acc c =>
      if acc.any (fun c2 => c2.name == c.name) then acc else acc ++ [c]) [])

/-- Modelled from the spec: fault filters are derived from the route
configuration, one per route that carries a fault policy, each naming the
faulted cluster. -/
def buildFaultFilters (routeConfig : Option HTTPRouteConfig) : List HTTPFilter :=
  match routeConfig with
  | Option.none => []
  | Option.some rc =>
    (rc.virtualHosts.flatMap (fun vh => vh.routes.filterMap (fun r => r.faultCluster)))
      |>.map (fun c => { ftype := decoder, name := FaultFilter, kind := HTTPFilterKind.faultCfg c })

/-- buildHTTPListener constructs a listener with an HTTP connection
manager for the given address and port; a non-empty rds argument enables
RDS for the matching route name (config.go). -/
def buildHTTPListener (mesh : MeshConfig) (node : Node)
    (instances : List ServiceInstance) (routeConfig : Option HTTPRouteConfig)
    (ip : String) (port : Nat) (rds : String) (useRemoteAddress : Bool)
    (direction : String) (store : IstioConfigStore) : Listener :=
  let filters := buildFaultFilters routeConfig
  let filters := filters ++ [{ ftype := decoder, name := router, kind := HTTPFilterKind.routerCfg }]
  let filters := { name := CORSFilter, kind := HTTPFilterKind.corsCfg } :: filters
  let filters :=
    if mesh.mixerAddress ≠ "" then
      { ftype := decoder, name := MixerFilter, kind := HTTPFilterKind.mixerCfg } :: filters
    else filters
  let cfg : HTTPFilterConfig :=
    { codecType := auto,
      useRemoteAddress := useRemoteAddress,
      statName := "http",
      filters := filters,
      accessLog := if mesh.accessLogFile ≠ "" then [mesh.accessLogFile] else [],
      generateRequestID := mesh.enableTracing,
      tracingOperation := if mesh.enableTracing then Option.some direction else Option.none,
      rds := if rds ≠ "" then
          Option.some { cluster := RDSName, routeConfigName := rds,
                        refreshDelayMS := mesh.rdsRefreshDelayMS }
        else Option.none,
      routeConfig := if rds ≠ "" then Option.none else routeConfig }
  { name := ("http_") ++ ip ++ ("_") ++ toString port,
    ip := ip, port := port,
    bindToPort := true,
    filters := [{ ftype := read, name := HTTPConnectionManager,
                  kind := NetworkFilterKind.httpConnMgrCfg cfg }] }

/-- The HTTP filter chain of a listener's connection manager, when it has
one. -/
def Listener.httpFilters (l : Listener) : List HTTPFilter :=
  match l.filters with
  | [{ ftype := _, name := _, kind := NetworkFilterKind.httpConnMgrCfg cfg }] => cfg.filters
  | _ => []

/-- consolidateAuthPolicy returns the service port policy unless it is
INHERIT, in which case the mesh policy is mapped across the two enums
(config.go). -/
def consolidateAuthPolicy (mesh : MeshConfig)
    (serviceAuthPolicy : AuthenticationPolicy) : AuthenticationPolicy :=
  if serviceAuthPolicy ≠ AuthenticationPolicy.inherit then serviceAuthPolicy
  else
    match mesh.authPolicy with
    | MeshAuthPolicy.mutualTLS => AuthenticationPolicy.mutualTLS
    | MeshAuthPolicy.none => AuthenticationPolicy.none

/-- mayApplyInboundAuth attaches an SSL context to the listener when the
consolidated policy is MUTUAL_TLS (config.go). -/
def mayApplyInboundAuth (l : Listener) (mesh : MeshConfig)
    (serviceAuthPolicy : AuthenticationPolicy) : Listener :=
  if consolidateAuthPolicy mesh serviceAuthPolicy = AuthenticationPolicy.mutualTLS then
    { l with sslContext := Option.some (buildListenerSSLContext AuthCertsPath) }
  else l

/-- buildTCPListener constructs a TCP proxy listener, specialised to a
Mongo filter stack or a Redis filter depending on the protocol
(config.go). -/
def buildTCPListener (tcpConfig : TCPRouteConfig) (ip : String) (port : Nat)
    (protocol : Protocol) : Listener :=
  let baseTCPProxy : NetworkFilter :=
    { ftype := read, name := TCPProxyFilter,
      kind := NetworkFilterKind.tcpProxyCfg ("tcp") tcpConfig }
  match protocol with
  | Protocol.mongo =>
    { name := ("mongo_") ++ ip ++ ("_") ++ toString port,
      ip := ip, port := port,
      filters := [{ ftype := both, name := MongoProxyFilter,
                    kind := NetworkFilterKind.mongoProxyCfg ("mongo") },
                  baseTCPProxy] }
  | Protocol.redis =>
    match tcpConfig.routes with
    | [r] =>
      { name := ("redis_") ++ ip ++ ("_") ++ toString port,
        ip := ip, port := port,
        filters := [{ ftype := both, name := RedisProxyFilter,
                      kind := NetworkFilterKind.redisProxyCfg r.cluster ("redis")
                        redisOpTimeoutMS }] }
    | _ =>
      { name := ("tcp_") ++ ip ++ ("_") ++ toString port,
        ip := ip, port := port, filters := [baseTCPProxy] }
  | _ =>
    { name := ("tcp_") ++ ip ++ ("_") ++ toString port,
      ip := ip, port := port, filters := [baseTCPProxy] }

/-- Splits a character list at a separator character, accumulating the
current segment (the Go strings.Split on single-character separators). -/
def splitCharAux (c : Char) : List Char → List Char → List String
  | [], acc => [String.mk acc.reverse]
  | x :: xs, acc =>
    if x = c then String.mk acc.reverse :: splitCharAux c xs []
    else splitCharAux c xs (x :: acc)

/-- Splits a string on the dot separator, as strings.Split(s, ".") does. -/
def splitDots (s : String) : List String :=
  splitCharAux ('.') s.data []

/-- appendPortToDomains extends each domain with a `domain:port` variant
(config.go). -/
def appendPortToDomains (domains : List String) (port : Nat) : List String :=
  domains ++ domains.map (fun d => d ++ (":") ++ toString port)

/-- The source loop translating sorted rules in order: each rule becomes a
route; on the first catch-all route the loop breaks and the default route
is suppressed.  Returns the routes and the useDefaultRoute flag
(config.go, buildDestinationHTTPRoutes). -/
def translateRouteRules (svc : Service) (sp : Port) :
    List RouteRule → List HTTPRoute × Bool
  | [] => ([], true)
  | rule :: rest =>
    let httpRoute := buildHTTPRoute rule svc sp
    if httpRoute.CatchAll then ([httpRoute], false)
    else
      let p := translateRouteRules svc sp rest
      (httpRoute :: p.1, p.2)

/-- buildDestinationHTTPRoutes creates the HTTP routes for one service
port from the sorted route rules (config.go). -/
def buildDestinationHTTPRoutes (svc : Service) (sp : Port)
    (instances : List ServiceInstance) (store : IstioConfigStore) :
    List HTTPRoute :=
  match sp.protocol with
  | Protocol.http | Protocol.http2 | Protocol.grpc =>
    let rules := sortRouteRules (store.routeRulesFor svc.hostname)
    let p := translateRouteRules svc sp rules
    if p.2 then p.1 ++ [buildDefaultRoute (buildOutboundCluster svc.hostname sp)]
    else p.1
  | Protocol.https =>
    if svc.External then [buildDefaultRoute (buildOutboundCluster svc.hostname sp)]
    else []
  | _ => []

/-- Modelled from the spec: short-name domain variants derived from the
proxy's domain suffix. -/
def shortNames (hostname : String) (suffix : List String) : List String :=
  match splitDots hostname with
  | [] => []
  | base :: rest => if rest = suffix ∧ rest ≠ [] then [base] else []

/-- Modelled from the spec: the virtual host of a service port, named by
the service key, whose domains are the hostname, its short-name variants
and their `domain:port` forms. -/
def buildVirtualHost (svc : Service) (sp : Port) (suffix : List String)
    (routes : List HTTPRoute) : VirtualHost :=
  { name := serviceKey svc.hostname sp,
    domains := appendPortToDomains (svc.hostname :: shortNames svc.hostname suffix) sp.port,
    routes := routes }

/-- buildOutboundHTTPRoutes creates the port-indexed outbound HTTP route
configurations for all services (config.go). -/
def buildOutboundHTTPRoutes (mesh : MeshConfig) (node : Node)
    (instances : List ServiceInstance) (services : List Service)
    (store : IstioConfigStore) : HTTPRouteConfigs :=
  let suffix := splitDots node.domain
  let cfgs := services.foldl
    (fun cfgs svc =>
      svc.ports.foldl
        (fun cfgs sp =>
          let routes := buildDestinationHTTPRoutes svc sp instances store
          if routes ≠ [] then
            ensurePortAppend cfgs sp.port (buildVirtualHost svc sp suffix routes)
          else cfgs)
        cfgs)
    []
  normalizeRouteConfigs cfgs

/-- Modelled from the spec: case-insensitive protocol parsing for egress
rule ports. -/
def convertStringToProtocol (s : String) : Protocol :=
  let u := s.toUpper
  if u == ("HTTP") then Protocol.http
  else if u == ("HTTP2") then Protocol.http2
  else if u == ("GRPC") then Protocol.grpc
  else if u == ("HTTPS") then Protocol.https
  else if u == ("TCP") then Protocol.tcp
  else if u == ("MONGO") then Protocol.mongo
  else if u == ("REDIS") then Protocol.redis
  else Protocol.udp

/-- Modelled from the spec: the TCP-family protocols supported by egress
rules. -/
def isEgressSupportedTCPProtocol (p : Protocol) : Bool :=
  p == Protocol.tcp || p == Protocol.https || p == Protocol.mongo || p == Protocol.redis

/-- Modelled from the spec: RejectConflictingEgressRules accepts rules in
order and drops any rule one of whose host-port pairs is already claimed
by an accepted rule; rejection is never fatal. -/
def rejectConflictingEgressRules (rules : List EgressRule) :
    List EgressRule × List String :=
  rules.foldl
    (fun acc rule =>
      if acc.1.any (fun a =>
          a.destinationService == rule.destinationService &&
            rule.ports.any (fun p => a.ports.any (fun q => q.port == p.port))) then
        (acc.1, acc.2 ++ [rule.destinationService])
      else (acc.1 ++ [rule], acc.2))
    ([], [])

/-- buildEgressVirtualHost creates the virtual host of one egress rule
port, routing to a per-rule original-destination cluster; HTTPS egress is
routed as plain HTTP with TLS origination (config.go). -/
def buildEgressVirtualHost (rule : EgressRule) (mesh : MeshConfig) (sp : Port)
    (instances : List ServiceInstance) (store : IstioConfigStore) : VirtualHost :=
  let destination := rule.destinationService
  let protocolToHandle := if sp.protocol = Protocol.grpc then Protocol.http2 else sp.protocol
  let key := serviceKey destination sp
  let name := truncateClusterName key
  let callPort :=
    if protocolToHandle = Protocol.https then { sp with protocol := Protocol.http } else sp
  let routes := buildDestinationHTTPRoutes
    { hostname := destination } callPort instances store
  let externalCluster := { buildOriginalDSTCluster name mesh.connectTimeoutMS with
                           serviceName := key }
  let routes := routes.map (fun r =>
    { r with cluster := externalCluster.name, clustersRef := [externalCluster] })
  { name := destination ++ (":") ++ toString sp.port,
    domains := appendPortToDomains [destination] sp.port,
    routes := routes }

/-- buildEgressHTTPRoutes folds the HTTP-family egress rules into the
route configurations; Routers get no egress routes (config.go). -/
def buildEgressHTTPRoutes (mesh : MeshConfig) (node : Node)
    (instances : List ServiceInstance) (store : IstioConfigStore)
    (httpConfigs : HTTPRouteConfigs) : HTTPRouteConfigs :=
  if node.nodeType = NodeType.router then httpConfigs
  else
    let egressRules := (rejectConflictingEgressRules store.egressRules).1
    let cfgs := egressRules.foldl
      (fun cfgs rule =>
        rule.ports.foldl
          (fun cfgs port =>
            let protocol := convertStringToProtocol port.protocol
            if protocol = Protocol.http ∨ protocol = Protocol.https ∨
                protocol = Protocol.http2 ∨ protocol = Protocol.grpc then
              let modelPort : Port :=
                { name := ("external-") ++ toString port.port,
                  port := port.port, protocol := protocol }
              ensurePortAppend cfgs port.port
                (buildEgressVirtualHost rule mesh modelPort instances store)
            else cfgs)
          cfgs)
      httpConfigs
    normalizeRouteConfigs cfgs

/-- buildEgressTCPRoute builds the TCP route and original-destination
cluster of one egress rule on a port (config.go). -/
def buildEgressTCPRoute (rule : EgressRule) (mesh : MeshConfig) (sp : Port) :
    TCPRoute × Cluster :=
  let destination := rule.destinationService
  let key := serviceKey destination sp
  let name := truncateClusterName key
  let externalCluster := { buildOriginalDSTCluster name mesh.connectTimeoutMS with
                           serviceName := key }
  (buildTCPRoute externalCluster [destination], externalCluster)

/-- buildEgressTCPListeners builds one wildcard listener per distinct TCP
egress port and one cluster per rule; Routers get none (config.go).  The
Go port map is embedded as an association list in first-appearance
order. -/
def buildEgressTCPListeners (mesh : MeshConfig) (node : Node)
    (store : IstioConfigStore) : List Listener × List Cluster :=
  if node.nodeType = NodeType.router then ([], [])
  else
    let egressRules := (rejectConflictingEgressRules store.egressRules).1
    let byPort : List (Nat × Protocol × List EgressRule) := egressRules.foldl
      (fun acc rule =>
        rule.ports.foldl
          (fun acc port =>
            let protocol := convertStringToProtocol port.protocol
            if isEgressSupportedTCPProtocol protocol then
              if acc.any (fun e => e.1 == port.port) then
                acc.map (fun e =>
                  if e.1 == port.port then (e.1, e.2.1, e.2.2 ++ [rule]) else e)
              else acc ++ [(port.port, protocol, [rule])]
            else acc)
          acc)
      []
    byPort.foldl
      (fun acc entry =>
        let intPort := entry.1
        let protocol := entry.2.1
        let modelPort : Port :=
          { name := ("external-") ++ toString intPort,
            port := intPort, protocol := protocol }
        let rc := entry.2.2.foldl
          (fun (rc : List TCPRoute × List Cluster) rule =>
            let p := buildEgressTCPRoute rule mesh modelPort
            (rc.1 ++ [p.1], rc.2 ++ [p.2]))
          ([], [])
        (acc.1 ++ [buildTCPListener ⟨rc.1⟩ WildcardAddress intPort protocol],
         acc.2 ++ rc.2))
      ([], [])

/-- The shared original-destination cluster for headless TCP services. -/
def origDstClusterTCP (mesh : MeshConfig) : Cluster :=
  buildOriginalDSTCluster ("orig-dst-cluster-tcp") mesh.connectTimeoutMS

/-- State of the outbound TCP listener loop: emitted listeners and
clusters, whether the shared original-destination cluster was created,
and the ports already holding a wildcard listener. -/
structure TCPBuildState where
  listeners : List Listener := []
  clusters : List Cluster := []
  origDstCreated : Bool := false
  wildcardPorts : List Nat := []
deriving Repr

/-- One service-port step of buildOutboundTCPListeners: TCP-family ports
of non-VIP services (or any service on a Router) get at most one wildcard
listener per port, others get a listener on the service VIP
(config.go). -/
def outboundTCPPort (mesh : MeshConfig) (node : Node) (st : TCPBuildState)
    (svc : Service) (sp : Port) : TCPBuildState :=
  match sp.protocol with
  | Protocol.tcp | Protocol.https | Protocol.mongo | Protocol.redis =>
    if svc.loadBalancingDisabled || svc.address == "" ||
        node.nodeType == NodeType.router then
      if sp.port ∈ st.wildcardPorts then st
      else
        let st := { st with wildcardPorts := sp.port :: st.wildcardPorts }
        let p :=
          if svc.loadBalancingDisabled && !(node.nodeType == NodeType.router) then
            if st.origDstCreated then (origDstClusterTCP mesh, st)
            else (origDstClusterTCP mesh,
              { st with origDstCreated := true,
                        clusters := st.clusters ++ [origDstClusterTCP mesh] })
          else
            let c := buildOutboundCluster svc.hostname sp
            (c, { st with clusters := st.clusters ++ [c] })
        let st := p.2
        let route := buildTCPRoute p.1 []
        let listener := buildTCPListener ⟨[route]⟩ WildcardAddress sp.port sp.protocol
        let listener :=
          if node.nodeType == NodeType.router then { listener with bindToPort := true }
          else listener
        { st with listeners := st.listeners ++ [listener] }
    else
      let c := buildOutboundCluster svc.hostname sp
      let route := buildTCPRoute c [svc.address]
      let listener := buildTCPListener ⟨[route]⟩ svc.address sp.port sp.protocol
      { st with clusters := st.clusters ++ [c],
                listeners := st.listeners ++ [listener] }
  | _ => st

/-- The (service, port) pairs visited by the outbound TCP loop, skipping
external services. -/
def outboundTCPPairs (services : List Service) : List (Service × Port) :=
  services.flatMap (fun s =>
    if s.External then [] else s.ports.map (fun sp => (s, sp)))

/-- buildOutboundTCPListeners lists the TCP-family listeners and clusters
for the given services (config.go). -/
def buildOutboundTCPListeners (mesh : MeshConfig) (node : Node)
    (services : List Service) : List Listener × List Cluster :=
  let st := (outboundTCPPairs services).foldl
    (fun st pr => outboundTCPPort mesh node st pr.1 pr.2) {}
  (st.listeners, st.clusters)

/-- Modelled from the spec: the server-side mixer opaque config attached
to inbound HTTP routes; represented by the flag on the route. -/
def withMixerOpaqueConfig (r : HTTPRoute) : HTTPRoute :=
  { r with opaqueMixer := true }

/-- Modelled from the spec: inbound rules may inject additional routes;
each translates its match condition and targets the inbound cluster. -/
def buildInboundRoute (rule : RouteRule) (c : Cluster) : Option HTTPRoute :=
  match rule.matchCondition with
  | Option.none => Option.some { cluster := c.name, clustersRef := [c] }
  | Option.some m =>
    Option.some { prefixMatch := m.prefixMatch, pathMatch := m.pathMatch,
                  headerMatch := m.headerMatch, cluster := c.name, clustersRef := [c] }

/-- One instance step of buildInboundListeners: an HTTP connection manager
with inline routes for HTTP-family endpoints, a TCP listener (with an
optional mixer filter) for TCP-family endpoints, with inbound auth applied
(config.go). -/
def inboundInstanceListener (mesh : MeshConfig) (node : Node)
    (instances : List ServiceInstance) (store : IstioConfigStore)
    (inst : ServiceInstance) : Option (Listener × Cluster) :=
  let endpoint := inst.endpoint
  let protocol := endpoint.servicePort.protocol
  let cluster := buildInboundCluster endpoint.port protocol mesh.connectTimeoutMS
  let listener? :=
    match protocol with
    | Protocol.http | Protocol.http2 | Protocol.grpc =>
      let defaultRoute := buildDefaultRoute cluster
      let defaultRoute :=
        if mesh.mixerAddress ≠ "" then withMixerOpaqueConfig defaultRoute
        else defaultRoute
      let ruleRoutes :=
        if protocol = Protocol.http then
          (sortRouteRules (store.routeRulesByDestination instances)).filterMap
            (fun rule => (buildInboundRoute rule cluster).map (fun r =>
              if mesh.mixerAddress ≠ "" then withMixerOpaqueConfig r else r))
        else []
      let host : VirtualHost :=
        { name := ("inbound|") ++ toString endpoint.port,
          domains := ["*"],
          routes := ruleRoutes ++ [defaultRoute] }
      Option.some (buildHTTPListener mesh node instances
        (Option.some ⟨[host]⟩) endpoint.address endpoint.port ""
        false IngressTraceOperation store)
    | Protocol.tcp | Protocol.https | Protocol.mongo | Protocol.redis =>
      let l := buildTCPListener
        ⟨[buildTCPRoute cluster [endpoint.address]]⟩
        endpoint.address endpoint.port protocol
      let l :=
        if mesh.mixerAddress ≠ "" then
          { l with filters :=
              { ftype := both, name := MixerFilter,
                kind := NetworkFilterKind.mixerTCPCfg } :: l.filters }
        else l
      Option.some l
    | _ => Option.none
  listener?.map (fun l =>
    (mayApplyInboundAuth l mesh endpoint.servicePort.authenticationPolicy, cluster))

/-- buildInboundListeners creates the server-side listeners and clusters
of the co-located instances (config.go). -/
def buildInboundListeners (mesh : MeshConfig) (node : Node)
    (instances : List ServiceInstance) (store : IstioConfigStore) :
    List Listener × List Cluster :=
  instances.foldl
    (fun acc inst =>
      match inboundInstanceListener mesh node instances store inst with
      | Option.none => acc
      | Option.some (l, c) => (acc.1 ++ [l], acc.2 ++ [c]))
    ([], [])

/-- buildMgmtPortListeners creates plain TCP listeners for the management
ports of known protocols on the management IP (config.go). -/
def buildMgmtPortListeners (mesh : MeshConfig) (managementPorts : List Port)
    (managementIP : String) : List Listener × List Cluster :=
  managementPorts.foldl
    (fun acc mPort =>
      match mPort.protocol with
      | Protocol.udp => acc
      | _ =>
        let cluster := buildInboundCluster mPort.port Protocol.tcp mesh.connectTimeoutMS
        let listener := buildTCPListener
          ⟨[buildTCPRoute cluster [managementIP]]⟩
          managementIP mPort.port Protocol.tcp
        (acc.1 ++ [listener], acc.2 ++ [cluster]))
    ([], [])

/-- buildOutboundListeners combines the outbound TCP listeners, the egress
TCP listeners and one RDS-enabled HTTP listener per outbound HTTP port
(config.go). -/
def buildOutboundListeners (mesh : MeshConfig) (node : Node)
    (instances : List ServiceInstance) (services : List Service)
    (store : IstioConfigStore) : List Listener × List Cluster :=
  let p := buildOutboundTCPListeners mesh node services
  let e := buildEgressTCPListeners mesh node store
  let acc := (p.1 ++ e.1, p.2 ++ e.2)
  let httpOutbound := buildEgressHTTPRoutes mesh node instances store
    (buildOutboundHTTPRoutes mesh node instances services store)
  httpOutbound.foldl
    (fun acc pc =>
      let useRemoteAddress := node.nodeType == NodeType.router
      let operation :=
        if node.nodeType = NodeType.router then IngressTraceOperation
        else EgressTraceOperation
      let l := buildHTTPListener mesh node instances (Option.some pc.2)
        WildcardAddress pc.1 (toString pc.1) useRemoteAddress operation store
      (acc.1 ++ [l], acc.2 ++ pc.2.clustersOf))
    acc

/-- Sorts services by hostname, as done at the top of
buildSidecarListenersClusters (config.go). -/
def sortServices (services : List Service) : List Service :=
  insertionSort (fun a b => strLe a.hostname b.hostname) services

/-- The virtual catch-all listener bound to the iptables redirect port
(config.go). -/
def virtualListener (port : Nat) : Listener :=
  { name := VirtualListenerName,
    ip := WildcardAddress, port := port,
    bindToPort := true, useOriginalDst := true, filters := [] }

/-- The management-listener loop of buildSidecarListenersClusters: each
management listener whose address collides with an already-present
listener is dropped together with its cluster, the others are appended
(config.go). -/
def appendMgmtLoop (ls : List Listener) (cs : List Cluster) :
    List (Listener × Cluster) → List Listener × List Cluster
  | [] => (ls, cs)
  | (m, c) :: rest =>
    match getByAddress ls m.ip m.port with
    | Option.some _ => appendMgmtLoop ls cs rest
    | Option.none => appendMgmtLoop (ls ++ [m]) (cs ++ [c]) rest

/-- The inbound, outbound and non-colliding management listeners of a
sidecar, before port redirection and the virtual listener are applied
(config.go, lines 220-243). -/
def sidecarPreListenersClusters (mesh : MeshConfig) (node : Node)
    (instances : List ServiceInstance) (services : List Service)
    (managementPorts : List Port) (store : IstioConfigStore) :
    List Listener × List Cluster :=
  let inb := buildInboundListeners mesh node instances store
  let outb := buildOutboundListeners mesh node instances services store
  let mgmt := buildMgmtPortListeners mesh managementPorts node.ipAddress
  appendMgmtLoop (inb.1 ++ outb.1) (inb.2 ++ outb.2) (mgmt.1.zip mgmt.2)

/-- buildSidecarListenersClusters produces the full listener and cluster
sets for sidecar and router proxies (config.go). -/
def buildSidecarListenersClusters (mesh : MeshConfig)
    (instances : List ServiceInstance) (services : List Service)
    (managementPorts : List Port) (node : Node) (store : IstioConfigStore) :
    List Listener × List Cluster :=
  let services := sortServices services
  let acc :=
    if node.nodeType = NodeType.router then
      buildOutboundListeners mesh node instances services store
    else if 0 < mesh.proxyListenPort then
      let pre := sidecarPreListenersClusters mesh node instances services
        managementPorts store
      (pre.1.map (fun l => { l with bindToPort := false }) ++
        [virtualListener mesh.proxyListenPort], pre.2)
    else ([], [])
  let acc :=
    if 0 < mesh.proxyHttpPort then
      let useRemoteAddress := node.nodeType == NodeType.router
      let traceOperation :=
        if node.nodeType = NodeType.router then IngressTraceOperation
        else EgressTraceOperation
      let listenAddress :=
        if node.nodeType = NodeType.router then WildcardAddress
        else LocalhostAddress
      let httpOutbound := buildEgressHTTPRoutes mesh node instances store
        (buildOutboundHTTPRoutes mesh node instances services store)
      (acc.1 ++ [buildHTTPListener mesh node instances Option.none listenAddress
          mesh.proxyHttpPort RDSAll useRemoteAddress traceOperation store],
       acc.2 ++ clustersOfConfigs httpOutbound)
    else acc
  (normalizeListeners acc.1, normalizeClusters acc.2)

/-- Modelled from the spec: ingress proxies get two RDS-enabled HTTP
listeners, on ports 80 and 443; the latter carries the ingress TLS
context. -/
def buildIngressListeners (mesh : MeshConfig) (instances : List ServiceInstance)
    (store : IstioConfigStore) (node : Node) : List Listener :=
  [buildHTTPListener mesh node instances Option.none WildcardAddress 80
     ("80") true IngressTraceOperation store,
   { buildHTTPListener mesh node instances Option.none WildcardAddress 443
       ("443") true IngressTraceOperation store with
     sslContext := Option.some (buildListenerSSLContext ("/etc/istio/ingress-certs")) }]

/-- Modelled from the spec: ingress route configurations derive from the
ingress rules of the config store; the claims under verification do not
depend on their content, and the modelled store carries no ingress rules,
so the configuration set is empty. -/
def buildIngressRoutes (mesh : MeshConfig) (instances : List ServiceInstance)
    (store : IstioConfigStore) : HTTPRouteConfigs :=
  []

/-- The per-request view of the service registry (proxy.Environment): the
outcomes of the registry calls the builders make for one node, with the
Go (value, error) pairs embedded as Except. -/
structure Environment where
  mesh : MeshConfig
  services : Except String (List Service)
  hostInstances : Except String (List ServiceInstance)
  managementPorts : List Port := []
  store : IstioConfigStore := {}

/-- Modelled from the spec: the mixer cluster appended when a mixer
address is configured. -/
def buildMixerCluster (mesh : MeshConfig) : Cluster :=
  { name := "mixer_server", ctype := "strict_dns",
    connectTimeoutMS := mesh.connectTimeoutMS }

/-- Modelled from the spec: destination-policy application over outbound
clusters; the modelled store carries no destination policies, under which
the policy pass leaves a cluster unchanged. -/
def applyClusterPolicy (c : Cluster) : Cluster :=
  c

/-- buildListeners produces the listeners for a proxy, propagating any
registry error (config.go). -/
def buildListeners (env : Environment) (node : Node) :
    Except String (List Listener) :=
  match node.nodeType with
  | NodeType.sidecar | NodeType.router =>
    match env.hostInstances with
    | Except.error e => Except.error e
    | Except.ok instances =>
      match env.services with
      | Except.error e => Except.error e
      | Except.ok services =>
        Except.ok (buildSidecarListenersClusters env.mesh instances services
          env.managementPorts node env.store).1
  | NodeType.ingress =>
    match env.hostInstances with
    | Except.error e => Except.error e
    | Except.ok instances =>
      Except.ok (buildIngressListeners env.mesh instances env.store node)

/-- buildClusters produces the clusters for a proxy, propagating any
registry error; on success the policy pass and the optional mixer cluster
are applied (config.go). -/
def buildClusters (env : Environment) (node : Node) :
    Except String (List Cluster) :=
  let built : Except String (List Cluster) :=
    match node.nodeType with
    | NodeType.sidecar | NodeType.router =>
      match env.hostInstances with
      | Except.error e => Except.error e
      | Except.ok instances =>
        match env.services with
        | Except.error e => Except.error e
        | Except.ok services =>
          Except.ok (buildSidecarListenersClusters env.mesh instances services
            env.managementPorts node env.store).2
    | NodeType.ingress =>
      match env.hostInstances with
      | Except.error e => Except.error e
      | Except.ok instances =>
        Except.ok (normalizeClusters
          (clustersOfConfigs (buildIngressRoutes env.mesh instances env.store)))
  match built with
  | Except.error e => Except.error e
  | Except.ok clusters =>
    let clusters := clusters.map applyClusterPolicy
    Except.ok (if env.mesh.mixerAddress ≠ "" then
        clusters ++ [buildMixerCluster env.mesh]
      else clusters)

/-- Modelled from the spec: the discovery endpoints surface a registry
failure as HTTP 503 and a successful build as HTTP 200. -/
def discoveryHTTPStatus {α : Type} : Except String α → Nat
  | Except.error _ => 503
  | Except.ok _ => 200

/-- The routes obtained by translating the sorted rules of a destination
in order, before the catch-all cutoff is applied. -/
def translatedRoutes (svc : Service) (sp : Port) (store : IstioConfigStore) :
    List HTTPRoute :=
  (sortRouteRules (store.routeRulesFor svc.hostname)).map
    (fun r => buildHTTPRoute r svc sp)

/-- Whether a (service, port) pair takes the wildcard-listener path of the
outbound TCP loop on port p: a TCP-family port of a service that is
load-balancing-disabled or address-less (or any service on a Router). -/
def isWildcardTCPMatch (node : Node) (p : Nat) (pr : Service × Port) : Bool :=
  (pr.2.protocol == Protocol.tcp || pr.2.protocol == Protocol.https ||
    pr.2.protocol == Protocol.mongo || pr.2.protocol == Protocol.redis) &&
  (pr.1.loadBalancingDisabled || pr.1.address == "" ||
    node.nodeType == NodeType.router) &&
  (pr.2.port == p)

/-- The wildcard listener the outbound TCP loop emits for a matching
(service, port) pair. -/
def keptWildcardListener (mesh : MeshConfig) (node : Node)
    (pr : Service × Port) : Listener :=
  let cluster :=
    if pr.1.loadBalancingDisabled && !(node.nodeType == NodeType.router) then
      origDstClusterTCP mesh
    else buildOutboundCluster pr.1.hostname pr.2
  let l := buildTCPListener ⟨[buildTCPRoute cluster []]⟩ WildcardAddress
    pr.2.port pr.2.protocol
  if node.nodeType == NodeType.router then { l with bindToPort := true } else l

/-- The sublist of listeners bound to the wildcard address on port p. -/
def wildcardFilter (p : Nat) (ls : List Listener) : List Listener :=
  ls.filter (fun l => l.ip == WildcardAddress && l.port == p)

/-- C1: consolidateAuthPolicy returns the service port policy when it is
not INHERIT and otherwise maps the mesh policy (MUTUAL_TLS to MUTUAL_TLS,
NONE to NONE); mayApplyInboundAuth attaches an SSL context to an inbound
listener iff the consolidated policy is MUTUAL_TLS, i.e. with mesh policy
MUTUAL_TLS iff the port policy is not DISABLE (`AuthenticationPolicy.none`),
and with mesh policy NONE iff the port policy is ENABLE
(`AuthenticationPolicy.mutualTLS`). -/
theorem consolidateAuthPolicy_spec (mesh : MeshConfig)
    (svcPolicy : AuthenticationPolicy) (l : Listener)
    (hl : l.sslContext = Option.none) :
    (consolidateAuthPolicy mesh svcPolicy =
      if svcPolicy ≠ AuthenticationPolicy.inherit then svcPolicy
      else match mesh.authPolicy with
        | MeshAuthPolicy.mutualTLS => AuthenticationPolicy.mutualTLS
        | MeshAuthPolicy.none => AuthenticationPolicy.none) ∧
    ((mayApplyInboundAuth l mesh svcPolicy).sslContext.isSome ↔
      consolidateAuthPolicy mesh svcPolicy = AuthenticationPolicy.mutualTLS) ∧
    (mesh.authPolicy = MeshAuthPolicy.mutualTLS →
      ((mayApplyInboundAuth l mesh svcPolicy).sslContext.isSome ↔
        svcPolicy ≠ AuthenticationPolicy.none)) ∧
    (mesh.authPolicy = MeshAuthPolicy.none →
      ((mayApplyInboundAuth l mesh svcPolicy).sslContext.isSome ↔
        svcPolicy = AuthenticationPolicy.mutualTLS)) := by
  cases hm : mesh.authPolicy <;> cases svcPolicy <;>
    simp [consolidateAuthPolicy, mayApplyInboundAuth, hm, hl]

/-- Witness for C1 at a concrete input: mesh policy MUTUAL_TLS and an
inheriting port policy produce an SSL context on a fresh listener. -/
theorem consolidateAuthPolicy_spec_witness :
    (({ name := "l", ip := "10.0.0.1", port := 80 } : Listener).sslContext
        = Option.none) ∧
    ((mayApplyInboundAuth { name := "l", ip := "10.0.0.1", port := 80 }
        { authPolicy := MeshAuthPolicy.mutualTLS }
        AuthenticationPolicy.inherit).sslContext.isSome ↔
      consolidateAuthPolicy { authPolicy := MeshAuthPolicy.mutualTLS }
        AuthenticationPolicy.inherit = AuthenticationPolicy.mutualTLS) :=
  ⟨rfl, (consolidateAuthPolicy_spec { authPolicy := MeshAuthPolicy.mutualTLS }
    AuthenticationPolicy.inherit { name := "l", ip := "10.0.0.1", port := 80 }
    rfl).2.1⟩

/-- C3 counterexample: with a non-empty mixer address the generated HTTP
filter chain is Mixer, CORS, Router (outermost first), not the claimed
CORS, Mixer, Router. -/
theorem httpFilterChainCounterexample :
    ((buildHTTPListener { mixerAddress := "istio-mixer:9091" }
        { nodeType := NodeType.sidecar } [] Option.none ("10.0.0.1") 80 ""
        false EgressTraceOperation {}).httpFilters).map HTTPFilter.name =
      [MixerFilter, CORSFilter, router] ∧
    ((buildHTTPListener { mixerAddress := "istio-mixer:9091" }
        { nodeType := NodeType.sidecar } [] Option.none ("10.0.0.1") 80 ""
        false EgressTraceOperation {}).httpFilters).map HTTPFilter.name ≠
      [CORSFilter, MixerFilter, router] := by
  refine ⟨rfl, ?_⟩
  decide

/-- C3 (amended): for every listener built by buildHTTPListener the HTTP
filter chain is, outermost first: the Mixer filter iff mesh.MixerAddress
is non-empty, then CORS, then the fault filters, then the Router filter. -/
theorem buildHTTPListener_filterChain (mesh : MeshConfig) (node : Node)
    (instances : List ServiceInstance) (routeConfig : Option HTTPRouteConfig)
    (ip : String) (port : Nat) (rds : String) (useRemoteAddress : Bool)
    (direction : String) (store : IstioConfigStore) :
    (buildHTTPListener mesh node instances routeConfig ip port rds
        useRemoteAddress direction store).httpFilters =
      (if mesh.mixerAddress ≠ "" then
        [{ ftype := decoder, name := MixerFilter, kind := HTTPFilterKind.mixerCfg }]
      else []) ++
      [{ name := CORSFilter, kind := HTTPFilterKind.corsCfg }] ++
      buildFaultFilters routeConfig ++
      [{ ftype := decoder, name := router, kind := HTTPFilterKind.routerCfg }] := by
  by_cases hm : mesh.mixerAddress = "" <;>
    simp [buildHTTPListener, Listener.httpFilters, hm]

/-- C5: a registry error from HostInstances or Services propagates out of
buildListeners and buildClusters unchanged, with no config bundle, and
surfaces as HTTP 503 at the discovery layer. -/
theorem builders_propagate_registry_errors (env : Environment) (node : Node)
    (e : String) :
    (env.hostInstances = Except.error e →
      buildListeners env node = Except.error e ∧
      buildClusters env node = Except.error e ∧
      discoveryHTTPStatus (buildListeners env node) = 503 ∧
      discoveryHTTPStatus (buildClusters env node) = 503) ∧
    (∀ insts, env.hostInstances = Except.ok insts →
      env.services = Except.error e →
      (node.nodeType = NodeType.sidecar ∨ node.nodeType = NodeType.router) →
      buildListeners env node = Except.error e ∧
      buildClusters env node = Except.error e ∧
      discoveryHTTPStatus (buildListeners env node) = 503 ∧
      discoveryHTTPStatus (buildClusters env node) = 503) := by
  constructor
  · intro h
    cases hnt : node.nodeType <;>
      simp [buildListeners, buildClusters, discoveryHTTPStatus, h, hnt]
  · intro insts hi hs hnode
    rcases hnode with hnt | hnt <;>
      simp [buildListeners, buildClusters, discoveryHTTPStatus, hi, hs, hnt]

/-- Witness for C5 at a concrete input: a failing HostInstances call on a
sidecar yields the error and a 503. -/
theorem builders_propagate_registry_errors_witness :
    (({ mesh := {}, services := Except.ok [],
        hostInstances := Except.error "mock HostInstances() error" }
          : Environment).hostInstances =
      Except.error "mock HostInstances() error") ∧
    (buildListeners
        { mesh := {}, services := Except.ok [],
          hostInstances := Except.error "mock HostInstances() error" }
        { nodeType := NodeType.sidecar } =
      Except.error "mock HostInstances() error" ∧
      buildClusters
        { mesh := {}, services := Except.ok [],
          hostInstances := Except.error "mock HostInstances() error" }
        { nodeType := NodeType.sidecar } =
      Except.error "mock HostInstances() error" ∧
      discoveryHTTPStatus (buildListeners
        { mesh := {}, services := Except.ok [],
          hostInstances := Except.error "mock HostInstances() error" }
        { nodeType := NodeType.sidecar }) = 503 ∧
      discoveryHTTPStatus (buildClusters
        { mesh := {}, services := Except.ok [],
          hostInstances := Except.error "mock HostInstances() error" }
        { nodeType := NodeType.sidecar }) = 503) :=
  ⟨rfl, (builders_propagate_registry_errors
    { mesh := {}, services := Except.ok [],
      hostInstances := Except.error "mock HostInstances() error" }
    { nodeType := NodeType.sidecar } "mock HostInstances() error").1 rfl⟩

/-- C8: buildTCPListener emits the Redis proxy filter naming the sole
route's cluster iff the route table has exactly one route, falls back to a
plain TCP proxy listener otherwise, and stacks the Mongo proxy filter in
front of the TCP proxy for Mongo. -/
theorem buildTCPListener_spec (cfg : TCPRouteConfig) (ip : String) (port : Nat) :
    (∀ r, cfg.routes = [r] →
      buildTCPListener cfg ip port Protocol.redis =
        { name := ("redis_") ++ ip ++ ("_") ++ toString port,
          ip := ip, port := port,
          filters := [{ ftype := both, name := RedisProxyFilter,
                        kind := NetworkFilterKind.redisProxyCfg r.cluster
                          ("redis") redisOpTimeoutMS }] }) ∧
    (cfg.routes.length ≠ 1 →
      buildTCPListener cfg ip port Protocol.redis =
        { name := ("tcp_") ++ ip ++ ("_") ++ toString port,
          ip := ip, port := port,
          filters := [{ ftype := read, name := TCPProxyFilter,
                        kind := NetworkFilterKind.tcpProxyCfg ("tcp") cfg }] }) ∧
    (buildTCPListener cfg ip port Protocol.mongo =
      { name := ("mongo_") ++ ip ++ ("_") ++ toString port,
        ip := ip, port := port,
        filters := [{ ftype := both, name := MongoProxyFilter,
                      kind := NetworkFilterKind.mongoProxyCfg ("mongo") },
                    { ftype := read, name := TCPProxyFilter,
                      kind := NetworkFilterKind.tcpProxyCfg ("tcp") cfg }] }) := by
  refine ⟨?_, ?_, rfl⟩
  · intro r h
    rcases cfg with ⟨routes⟩
    simp only at h
    subst h
    rfl
  · intro h
    rcases cfg with ⟨_ | ⟨r, _ | ⟨r2, rs⟩⟩⟩ <;> first
      | rfl
      | exact absurd rfl h

/-- Witness for C8 at concrete inputs: a singleton Redis route table and a
two-route table. -/
theorem buildTCPListener_spec_witness :
    ((⟨[{ cluster := "out.redis" }]⟩ : TCPRouteConfig).routes =
      [{ cluster := "out.redis" }] ∧
      buildTCPListener ⟨[{ cluster := "out.redis" }]⟩ ("10.0.0.2") 6379
          Protocol.redis =
        { name := ("redis_") ++ ("10.0.0.2") ++ ("_") ++ toString 6379,
          ip := "10.0.0.2", port := 6379,
          filters := [{ ftype := both, name := RedisProxyFilter,
                        kind := NetworkFilterKind.redisProxyCfg ("out.redis")
                          ("redis") redisOpTimeoutMS }] }) ∧
    ((⟨[{ cluster := "a" }, { cluster := "b" }]⟩ : TCPRouteConfig).routes.length ≠ 1 ∧
      buildTCPListener ⟨[{ cluster := "a" }, { cluster := "b" }]⟩ ("10.0.0.2")
          6379 Protocol.redis =
        { name := ("tcp_") ++ ("10.0.0.2") ++ ("_") ++ toString 6379,
          ip := "10.0.0.2", port := 6379,
          filters := [{ ftype := read, name := TCPProxyFilter,
                        kind := NetworkFilterKind.tcpProxyCfg ("tcp")
                          ⟨[{ cluster := "a" }, { cluster := "b" }]⟩ }] }) :=
  ⟨⟨rfl, (buildTCPListener_spec ⟨[{ cluster := "out.redis" }]⟩ ("10.0.0.2")
      6379).1 { cluster := "out.redis" } rfl⟩,
   ⟨by decide,
    (buildTCPListener_spec ⟨[{ cluster := "a" }, { cluster := "b" }]⟩
      ("10.0.0.2") 6379).2.1 (by decide)⟩⟩

/-- C10: for Router nodes the egress builders never consult the egress
rules: buildEgressHTTPRoutes returns its route configurations unchanged
and buildEgressTCPListeners returns empty listener and cluster lists,
whatever egress rules the store holds. -/
theorem egress_router_noop (mesh : MeshConfig) (node : Node)
    (instances : List ServiceInstance) (store : IstioConfigStore)
    (httpConfigs : HTTPRouteConfigs) (h : node.nodeType = NodeType.router) :
    buildEgressHTTPRoutes mesh node instances store httpConfigs = httpConfigs ∧
    buildEgressTCPListeners mesh node store = ([], []) := by
  constructor <;> simp [buildEgressHTTPRoutes, buildEgressTCPListeners, h]

/-- Witness for C10 at a concrete input: a Router node with a non-empty
egress rule store. -/
theorem egress_router_noop_witness :
    (({ nodeType := NodeType.router } : Node).nodeType = NodeType.router) ∧
    (buildEgressHTTPRoutes {} { nodeType := NodeType.router } []
        { egressRules := [{ destinationService := "*.google.com",
                            ports := [{ port := 80, protocol := "http" },
                                      { port := 444, protocol := "tcp" }] }] }
        [(80, ⟨[]⟩)] = [(80, ⟨[]⟩)] ∧
      buildEgressTCPListeners {} { nodeType := NodeType.router }
        { egressRules := [{ destinationService := "*.google.com",
                            ports := [{ port := 80, protocol := "http" },
                                      { port := 444, protocol := "tcp" }] }] } = ([], [])) :=
  ⟨rfl, egress_router_noop {} { nodeType := NodeType.router } []
    { egressRules := [{ destinationService := "*.google.com",
                        ports := [{ port := 80, protocol := "http" },
                                  { port := 444, protocol := "tcp" }] }] }
    [(80, ⟨[]⟩)] rfl⟩

/-- The hexadecimal rendering of a word always has eight characters. -/
theorem hexWord_length (w : Nat) : (hexWord w).length = 8 := by
  simp [hexWord]

/-- The hexadecimal SHA-1 digest of any string has forty characters. -/
theorem sha1Hex_length (s : String) : (sha1Hex s).length = 40 := by
  show (sha1Hex s).data.length = 40
  simp [sha1Hex, hexWord]

/-- C9: truncateClusterName returns the name unchanged when its length is
at most MaxClusterNameLength, otherwise the first
MaxClusterNameLength - 40 characters followed by the 40-character hex
SHA-1 of the whole original name; being a pure function it is
deterministic, and the result never exceeds MaxClusterNameLength
characters. -/
theorem truncateClusterName_spec (name : String) :
    truncateClusterName name =
      (if name.length ≤ MaxClusterNameLength then name
       else String.mk (name.data.take (MaxClusterNameLength - 40)) ++ sha1Hex name) ∧
    (sha1Hex name).length = 40 ∧
    (truncateClusterName name).length ≤ MaxClusterNameLength := by
  refine ⟨?_, sha1Hex_length name, ?_⟩
  · rw [truncateClusterName]
    split_ifs with h1 h2 <;> first | rfl | omega
  · rw [truncateClusterName]
    split_ifs with h1
    · have h40 := sha1Hex_length name
      show (String.mk (name.data.take (MaxClusterNameLength - 40)) ++ sha1Hex name).data.length ≤ MaxClusterNameLength
      have : (String.mk (name.data.take (MaxClusterNameLength - 40)) ++ sha1Hex name).data
          = name.data.take (MaxClusterNameLength - 40) ++ (sha1Hex name).data := rfl
      rw [this, List.length_append, List.length_take]
      have : (sha1Hex name).data.length = 40 := h40
      rw [this]
      have : MaxClusterNameLength = 189 := rfl
      omega
    · exact Nat.le_of_not_lt h1


/-- When no translated route is a catch-all, the translation loop emits
every route and keeps the default-route flag. -/
theorem translateRouteRules_no_catchall (svc : Service) (sp : Port)
    (rules : List RouteRule)
    (h : ∀ r ∈ rules, (buildHTTPRoute r svc sp).CatchAll = false) :
    translateRouteRules svc sp rules =
      (rules.map (fun r => buildHTTPRoute r svc sp), true) := by
  induction rules with
  | nil => rfl
  | cons r rest ih =>
    have hr := h r (List.mem_cons_self r rest)
    have hrest : ∀ x ∈ rest, (buildHTTPRoute x svc sp).CatchAll = false :=
      fun x hx => h x (List.mem_cons_of_mem r hx)
    simp [translateRouteRules, hr, ih hrest]

/-- When the i-th translated route is the first catch-all, the translation
loop stops there and clears the default-route flag. -/
theorem translateRouteRules_catchall (svc : Service) (sp : Port) :
    ∀ (rules : List RouteRule) (i : Nat) (hi : i < rules.length),
    (buildHTTPRoute (rules.get ⟨i, hi⟩) svc sp).CatchAll = true →
    (∀ j (hj : j < i),
      (buildHTTPRoute (rules.get ⟨j, Nat.lt_trans hj hi⟩) svc sp).CatchAll = false) →
    translateRouteRules svc sp rules =
      ((rules.map (fun r => buildHTTPRoute r svc sp)).take (i + 1), false) := by
  intro rules
  induction rules with
  | nil => intro i hi; exact absurd hi (Nat.not_lt_zero i)
  | cons r rest ih =>
    intro i hi hc hb
    cases i with
    | zero =>
      simp only [List.get] at hc
      simp [translateRouteRules, hc]
    | succ n =>
      have h0 : (buildHTTPRoute r svc sp).CatchAll = false := hb 0 (Nat.succ_pos n)
      have hn : n < rest.length := Nat.lt_of_succ_lt_succ hi
      have hcn : (buildHTTPRoute (rest.get ⟨n, hn⟩) svc sp).CatchAll = true := hc
      have hbn : ∀ j (hj : j < n),
          (buildHTTPRoute (rest.get ⟨j, Nat.lt_trans hj hn⟩) svc sp).CatchAll = false :=
        fun j hj => hb (j + 1) (Nat.succ_lt_succ hj)
      simp [translateRouteRules, h0, ih n hn hcn hbn]

/-- C2: for every HTTP, HTTP2 or GRPC service port,
buildDestinationHTTPRoutes translates the sorted rules in order; with no
catch-all among the translated routes it appends the default route to the
baseline outbound cluster as the last element, and with a first catch-all
at position i it returns exactly the first i+1 translated routes, ending
with the catch-all, with no default route and no routes for later rules. -/
theorem buildDestinationHTTPRoutes_spec (svc : Service) (sp : Port)
    (instances : List ServiceInstance) (store : IstioConfigStore)
    (hp : sp.protocol = Protocol.http ∨ sp.protocol = Protocol.http2 ∨
      sp.protocol = Protocol.grpc) :
    ((∀ t ∈ translatedRoutes svc sp store, t.CatchAll = false) →
      buildDestinationHTTPRoutes svc sp instances store =
        translatedRoutes svc sp store ++
          [buildDefaultRoute (buildOutboundCluster svc.hostname sp)]) ∧
    (∀ i (hi : i < (translatedRoutes svc sp store).length),
      ((translatedRoutes svc sp store).get ⟨i, hi⟩).CatchAll = true →
      (∀ j (hj : j < i),
        ((translatedRoutes svc sp store).get ⟨j, Nat.lt_trans hj hi⟩).CatchAll = false) →
      buildDestinationHTTPRoutes svc sp instances store =
        (translatedRoutes svc sp store).take (i + 1) ∧
      (buildDestinationHTTPRoutes svc sp instances store).getLast? =
        Option.some ((translatedRoutes svc sp store).get ⟨i, hi⟩)) := by
  have hred : buildDestinationHTTPRoutes svc sp instances store =
      (let p := translateRouteRules svc sp
        (sortRouteRules (store.routeRulesFor svc.hostname))
      if p.2 then p.1 ++ [buildDefaultRoute (buildOutboundCluster svc.hostname sp)]
      else p.1) := by
    rcases hp with hp | hp | hp <;> simp [buildDestinationHTTPRoutes, hp]
  constructor
  · intro hnone
    have h : ∀ r ∈ sortRouteRules (store.routeRulesFor svc.hostname),
        (buildHTTPRoute r svc sp).CatchAll = false := by
      intro r hr
      exact hnone (buildHTTPRoute r svc sp)
        (List.mem_map_of_mem (fun r => buildHTTPRoute r svc sp) hr)
    rw [hred, translateRouteRules_no_catchall svc sp _ h]
    rfl
  · intro i hi hc hb
    have hi2 : i < (sortRouteRules (store.routeRulesFor svc.hostname)).length := by
      simpa [translatedRoutes] using hi
    have hget : ∀ (k : Nat) (hk : k < (translatedRoutes svc sp store).length)
        (hk2 : k < (sortRouteRules (store.routeRulesFor svc.hostname)).length),
        (translatedRoutes svc sp store).get ⟨k, hk⟩ =
          buildHTTPRoute ((sortRouteRules (store.routeRulesFor svc.hostname)).get ⟨k, hk2⟩) svc sp := by
      intro k hk hk2
      simp [translatedRoutes]
    have hc2 : (buildHTTPRoute
        ((sortRouteRules (store.routeRulesFor svc.hostname)).get ⟨i, hi2⟩) svc sp).CatchAll = true := by
      rw [← hget i hi hi2]; exact hc
    have hb2 : ∀ j (hj : j < i),
        (buildHTTPRoute ((sortRouteRules (store.routeRulesFor svc.hostname)).get
          ⟨j, Nat.lt_trans hj hi2⟩) svc sp).CatchAll = false := by
      intro j hj
      rw [← hget j (Nat.lt_trans hj hi) (Nat.lt_trans hj hi2)]
      exact hb j hj
    have heq : buildDestinationHTTPRoutes svc sp instances store =
        (translatedRoutes svc sp store).take (i + 1) := by
      rw [hred, translateRouteRules_catchall svc sp _ i hi2 hc2 hb2]
      rfl
    refine ⟨heq, ?_⟩
    rw [heq]
    have hlen : ((translatedRoutes svc sp store).take (i + 1)).length = i + 1 := by
      have := hi
      simp only [List.length_take]
      omega
    rw [List.getLast?_eq_getElem?, hlen]
    simp only [Nat.add_sub_cancel]
    rw [List.getElem?_take]
    simp [Nat.lt_succ_self, List.getElem?_eq_getElem hi, List.get_eq_getElem]

/-- Witness for C2 at a concrete input: a single rule without match
conditions for destination hello is a catch-all, so the route list is
exactly that translated route and carries no default route. -/
theorem buildDestinationHTTPRoutes_spec_witness :
    (({ name := "http", port := 80, protocol := Protocol.http } : Port).protocol
        = Protocol.http ∨
      ({ name := "http", port := 80, protocol := Protocol.http } : Port).protocol
        = Protocol.http2 ∨
      ({ name := "http", port := 80, protocol := Protocol.http } : Port).protocol
        = Protocol.grpc) ∧
    (buildDestinationHTTPRoutes { hostname := "hello" }
        { name := "http", port := 80, protocol := Protocol.http } []
        { routeRules := [{ destination := "hello", key := "r1", precedence := 1 }] } =
      (translatedRoutes { hostname := "hello" }
        { name := "http", port := 80, protocol := Protocol.http }
        { routeRules := [{ destination := "hello", key := "r1", precedence := 1 }] }).take (0 + 1) ∧
     (buildDestinationHTTPRoutes { hostname := "hello" }
        { name := "http", port := 80, protocol := Protocol.http } []
        { routeRules := [{ destination := "hello", key := "r1", precedence := 1 }] }).getLast? =
      Option.some ((translatedRoutes { hostname := "hello" }
        { name := "http", port := 80, protocol := Protocol.http }
        { routeRules := [{ destination := "hello", key := "r1", precedence := 1 }] }).get
          ⟨0, by decide⟩)) :=
  ⟨Or.inl rfl,
    (buildDestinationHTTPRoutes_spec { hostname := "hello" }
      { name := "http", port := 80, protocol := Protocol.http } []
      { routeRules := [{ destination := "hello", key := "r1", precedence := 1 }] }
      (Or.inl rfl)).2 0 (by decide) (by decide)
      (fun j hj => absurd hj (Nat.not_lt_zero j))⟩


/-- buildTCPListener emits a listener at exactly the requested address. -/
theorem buildTCPListener_address (cfg : TCPRouteConfig) (ip : String)
    (port : Nat) (protocol : Protocol) :
    (buildTCPListener cfg ip port protocol).ip = ip ∧
    (buildTCPListener cfg ip port protocol).port = port := by
  cases protocol <;> rcases cfg with ⟨_ | ⟨r, _ | ⟨r2, rs⟩⟩⟩ <;> exact ⟨rfl, rfl⟩

/-- Unfolding of one outbound TCP loop step into its guard structure. -/
theorem outboundTCPPort_eq (mesh : MeshConfig) (node : Node)
    (st : TCPBuildState) (svc : Service) (sp : Port) :
    outboundTCPPort mesh node st svc sp =
      if sp.protocol == Protocol.tcp || sp.protocol == Protocol.https ||
          sp.protocol == Protocol.mongo || sp.protocol == Protocol.redis then
        if svc.loadBalancingDisabled || svc.address == "" ||
            node.nodeType == NodeType.router then
          if sp.port ∈ st.wildcardPorts then st
          else
            { listeners := st.listeners ++ [keptWildcardListener mesh node (svc, sp)],
              clusters :=
                if svc.loadBalancingDisabled && !(node.nodeType == NodeType.router) then
                  if st.origDstCreated then st.clusters
                  else st.clusters ++ [origDstClusterTCP mesh]
                else st.clusters ++ [buildOutboundCluster svc.hostname sp],
              origDstCreated := st.origDstCreated ||
                (svc.loadBalancingDisabled && !(node.nodeType == NodeType.router)),
              wildcardPorts := sp.port :: st.wildcardPorts }
        else
          { st with
            clusters := st.clusters ++ [buildOutboundCluster svc.hostname sp],
            listeners := st.listeners ++
              [buildTCPListener ⟨[buildTCPRoute (buildOutboundCluster svc.hostname sp)
                [svc.address]]⟩ svc.address sp.port sp.protocol] }
      else st := by
  rcases st with ⟨ls, cs, od, wp⟩
  rcases sp with ⟨pname, pport, pproto, pauth⟩
  cases pproto <;>
    simp only [outboundTCPPort, keptWildcardListener, Bool.or_self, Bool.false_or,
      Bool.true_or, Bool.or_true] <;>
    first
    | rfl
    | (by_cases hg : svc.loadBalancingDisabled || svc.address == "" ||
          node.nodeType == NodeType.router
       · simp only [hg, if_true]
         by_cases hw : pport ∈ wp
         · simp [hw]
         · simp only [hw, if_false]
           by_cases hlb : svc.loadBalancingDisabled && !(node.nodeType == NodeType.router)
           · cases hod : od <;> simp [hlb, hod]
           · simp [hlb]
       · simp [hg])

/-- The emitted wildcard listener sits at the wildcard address on the
pair's port. -/
theorem keptWildcardListener_address (mesh : MeshConfig) (node : Node)
    (pr : Service × Port) :
    (keptWildcardListener mesh node pr).ip = WildcardAddress ∧
    (keptWildcardListener mesh node pr).port = pr.2.port := by
  unfold keptWildcardListener
  by_cases hr : node.nodeType == NodeType.router <;>
    simp only [hr, if_true, if_false, Bool.false_eq_true] <;>
    simp [buildTCPListener_address]

/-- The wildcard-listener bookkeeping of the outbound TCP loop: on port p
the fold appends exactly the listener of the first matching pair not yet
blocked by the port set, and records p in the port set iff it was there or
some pair matches. -/
theorem outboundTCP_fold_spec (mesh : MeshConfig) (node : Node) (p : Nat) :
    ∀ (pairs : List (Service × Port)) (st : TCPBuildState),
    (∀ pr ∈ pairs, pr.1.address ≠ WildcardAddress) →
    (wildcardFilter p
        ((pairs.foldl (fun st pr => outboundTCPPort mesh node st pr.1 pr.2) st).listeners) =
      wildcardFilter p st.listeners ++
        (if p ∈ st.wildcardPorts then []
         else (((pairs.filter (isWildcardTCPMatch node p)).head?).map
           (keptWildcardListener mesh node)).toList)) ∧
    (p ∈ (pairs.foldl (fun st pr => outboundTCPPort mesh node st pr.1 pr.2) st).wildcardPorts ↔
      p ∈ st.wildcardPorts ∨ (pairs.filter (isWildcardTCPMatch node p)) ≠ []) := by
  intro pairs
  induction pairs with
  | nil =>
    intro st hadr
    constructor
    · simp
    · simp
  | cons pr rest ih =>
    intro st hadr
    have hpr1 : pr.1.address ≠ WildcardAddress := hadr pr (List.mem_cons_self pr rest)
    have hrest : ∀ x ∈ rest, x.1.address ≠ WildcardAddress :=
      fun x hx => hadr x (List.mem_cons_of_mem pr hx)
    rw [List.foldl_cons]
    by_cases hfam : (pr.2.protocol == Protocol.tcp || pr.2.protocol == Protocol.https ||
        pr.2.protocol == Protocol.mongo || pr.2.protocol == Protocol.redis) = true
    · by_cases hguard : (pr.1.loadBalancingDisabled || pr.1.address == "" ||
          node.nodeType == NodeType.router) = true
      · by_cases hwp : pr.2.port ∈ st.wildcardPorts
        · -- the port is already claimed: the step is a no-op
          have hstep : outboundTCPPort mesh node st pr.1 pr.2 = st := by
            rw [outboundTCPPort_eq]
            simp [hfam, hguard, hwp]
          rw [hstep]
          obtain ⟨ih1, ih2⟩ := ih st hrest
          by_cases hpp : pr.2.port = p
          · have hpmem : p ∈ st.wildcardPorts := hpp ▸ hwp
            constructor
            · rw [ih1]
              simp [hpmem]
            · rw [ih2]
              simp [hpmem]
          · have hmatch : isWildcardTCPMatch node p pr = false := by
              simp only [isWildcardTCPMatch, Bool.and_eq_false_iff]
              right
              simpa using hpp
            constructor
            · rw [ih1]
              simp [List.filter_cons, hmatch]
            · rw [ih2]
              simp [List.filter_cons, hmatch]
        · -- a new wildcard listener is emitted for this pair
          have hstep : outboundTCPPort mesh node st pr.1 pr.2 =
              { listeners := st.listeners ++ [keptWildcardListener mesh node pr],
                clusters :=
                  if pr.1.loadBalancingDisabled && !(node.nodeType == NodeType.router) then
                    if st.origDstCreated then st.clusters
                    else st.clusters ++ [origDstClusterTCP mesh]
                  else st.clusters ++ [buildOutboundCluster pr.1.hostname pr.2],
                origDstCreated := st.origDstCreated ||
                  (pr.1.loadBalancingDisabled && !(node.nodeType == NodeType.router)),
                wildcardPorts := pr.2.port :: st.wildcardPorts } := by
            rw [outboundTCPPort_eq]
            simp [hfam, hguard, hwp]
          rw [hstep]
          obtain ⟨ih1, ih2⟩ := ih _ hrest
          by_cases hpp : pr.2.port = p
          · have hpnot : p ∉ st.wildcardPorts := hpp ▸ hwp
            have hmatch : isWildcardTCPMatch node p pr = true := by
              simp only [isWildcardTCPMatch]
              simp [hfam, hguard, hpp]
            have hkept : (fun l => l.ip == WildcardAddress && l.port == p)
                (keptWildcardListener mesh node pr) = true := by
              obtain ⟨hip, hport⟩ := keptWildcardListener_address mesh node pr
              simp [hip, hport, hpp]
            constructor
            · rw [ih1]
              simp only [List.mem_cons]
              rw [if_pos (Or.inl hpp.symm)]
              simp only [List.append_nil]
              rw [show wildcardFilter p (st.listeners ++ [keptWildcardListener mesh node pr]) =
                  wildcardFilter p st.listeners ++ [keptWildcardListener mesh node pr] from ?_]
              · rw [if_neg hpnot]
                simp [List.filter_cons, hmatch]
              · unfold wildcardFilter
                rw [List.filter_append]
                simp [hkept]
            · rw [ih2]
              simp [List.filter_cons, hmatch, hpp]
          · have hmatch : isWildcardTCPMatch node p pr = false := by
              simp only [isWildcardTCPMatch, Bool.and_eq_false_iff]
              right
              simpa using hpp
            have hkept : (fun l => l.ip == WildcardAddress && l.port == p)
                (keptWildcardListener mesh node pr) = false := by
              obtain ⟨hip, hport⟩ := keptWildcardListener_address mesh node pr
              simp [hip, hport, hpp]
            have hfilter : wildcardFilter p (st.listeners ++ [keptWildcardListener mesh node pr]) =
                wildcardFilter p st.listeners := by
              unfold wildcardFilter
              rw [List.filter_append]
              simp [hkept]
            constructor
            · rw [ih1]
              simp only [hfilter]
              have : (p ∈ pr.2.port :: st.wildcardPorts) ↔ p ∈ st.wildcardPorts := by
                simp only [List.mem_cons]
                constructor
                · rintro (h | h)
                  · exact absurd h.symm hpp
                  · exact h
                · exact Or.inr
              rw [if_congr this rfl rfl]
              simp [List.filter_cons, hmatch]
            · rw [ih2]
              simp only [List.mem_cons]
              constructor
              · rintro (⟨h | h⟩ | h)
                · exact absurd h.symm hpp
                · exact Or.inl h
                · right
                  simpa [List.filter_cons, hmatch] using h
              · rintro (h | h)
                · exact Or.inl (Or.inr h)
                · right
                  simpa [List.filter_cons, hmatch] using h
      · -- VIP path: a listener on the service address, never wildcard
        have hstep : outboundTCPPort mesh node st pr.1 pr.2 =
            { st with
              clusters := st.clusters ++ [buildOutboundCluster pr.1.hostname pr.2],
              listeners := st.listeners ++
                [buildTCPListener ⟨[buildTCPRoute (buildOutboundCluster pr.1.hostname pr.2)
                  [pr.1.address]]⟩ pr.1.address pr.2.port pr.2.protocol] } := by
          rw [outboundTCPPort_eq]
          simp [hfam, hguard]
        rw [hstep]
        obtain ⟨ih1, ih2⟩ := ih _ hrest
        have hguard2 : (pr.1.loadBalancingDisabled || pr.1.address == "" ||
            node.nodeType == NodeType.router) = false := by
          simpa using hguard
        have hmatch : isWildcardTCPMatch node p pr = false := by
          simp [isWildcardTCPMatch, hguard2]
        have hvip : (fun l => l.ip == WildcardAddress && l.port == p)
            (buildTCPListener ⟨[buildTCPRoute (buildOutboundCluster pr.1.hostname pr.2)
              [pr.1.address]]⟩ pr.1.address pr.2.port pr.2.protocol) = false := by
          obtain ⟨hip, _⟩ := buildTCPListener_address
            ⟨[buildTCPRoute (buildOutboundCluster pr.1.hostname pr.2) [pr.1.address]]⟩
            pr.1.address pr.2.port pr.2.protocol
          simp [hip, hpr1]
        have hfilter : wildcardFilter p (st.listeners ++
            [buildTCPListener ⟨[buildTCPRoute (buildOutboundCluster pr.1.hostname pr.2)
              [pr.1.address]]⟩ pr.1.address pr.2.port pr.2.protocol]) =
            wildcardFilter p st.listeners := by
          unfold wildcardFilter
          rw [List.filter_append]
          simp [hvip]
        constructor
        · rw [ih1]
          simp only [hfilter]
          simp [List.filter_cons, hmatch]
        · rw [ih2]
          simp [List.filter_cons, hmatch]
    · -- not a TCP-family port: the step is a no-op
      have hstep : outboundTCPPort mesh node st pr.1 pr.2 = st := by
        rw [outboundTCPPort_eq]
        simp only [Bool.not_eq_true] at hfam
        simp [hfam]
      rw [hstep]
      obtain ⟨ih1, ih2⟩ := ih st hrest
      have hfam2 : (pr.2.protocol == Protocol.tcp || pr.2.protocol == Protocol.https ||
          pr.2.protocol == Protocol.mongo || pr.2.protocol == Protocol.redis) = false := by
        simpa using hfam
      have hmatch : isWildcardTCPMatch node p pr = false := by
        simp [isWildcardTCPMatch, hfam2]
      constructor
      · rw [ih1]
        simp [List.filter_cons, hmatch]
      · rw [ih2]
        simp [List.filter_cons, hmatch]

/-- C4: when two or more non-VIP (load-balancing-disabled or address-less)
services declare a TCP-family port with the same number, the listener list
of buildOutboundTCPListeners contains exactly one wildcard listener on
that port, namely the one of the first matching (service, port) pair in
the sorted service order the caller supplies; later duplicates are
skipped and never fatal.  The hypothesis that no service VIP is the
wildcard address itself rules out a VIP listener masquerading as a
wildcard one. -/
theorem buildOutboundTCPListeners_wildcard_unique (mesh : MeshConfig)
    (node : Node) (services : List Service) (p : Nat)
    (ha : ∀ s ∈ services, s.address ≠ WildcardAddress)
    (hm : 2 ≤ ((outboundTCPPairs services).filter (isWildcardTCPMatch node p)).length) :
    wildcardFilter p (buildOutboundTCPListeners mesh node services).1 =
      ((((outboundTCPPairs services).filter (isWildcardTCPMatch node p)).head?).map
        (keptWildcardListener mesh node)).toList ∧
    (wildcardFilter p (buildOutboundTCPListeners mesh node services).1).length = 1 := by
  have hpairs : ∀ pr ∈ outboundTCPPairs services, pr.1.address ≠ WildcardAddress := by
    intro pr hpr
    simp only [outboundTCPPairs, List.mem_flatMap] at hpr
    obtain ⟨s, hs, hmem⟩ := hpr
    by_cases he : s.External = true
    · rw [if_pos he] at hmem
      exact absurd hmem (List.not_mem_nil pr)
    · rw [if_neg he] at hmem
      obtain ⟨sp, _, heq⟩ := List.mem_map.mp hmem
      have : pr.1 = s := by rw [← heq]
      rw [this]
      exact ha s hs
  obtain ⟨h1, h2⟩ := outboundTCP_fold_spec mesh node p (outboundTCPPairs services) {} hpairs
  have hbase : (buildOutboundTCPListeners mesh node services).1 =
      ((outboundTCPPairs services).foldl
        (fun st pr => outboundTCPPort mesh node st pr.1 pr.2) {}).listeners := rfl
  have hmain : wildcardFilter p (buildOutboundTCPListeners mesh node services).1 =
      ((((outboundTCPPairs services).filter (isWildcardTCPMatch node p)).head?).map
        (keptWildcardListener mesh node)).toList := by
    rw [hbase, h1]
    simp [wildcardFilter]
  refine ⟨hmain, ?_⟩
  have hne : (outboundTCPPairs services).filter (isWildcardTCPMatch node p) ≠ [] := by
    intro h
    rw [h] at hm
    simp at hm
  rw [hmain]
  cases hhead : ((outboundTCPPairs services).filter (isWildcardTCPMatch node p)).head? with
  | none => exact absurd (List.head?_eq_none_iff.mp hhead) hne
  | some x => simp [hhead]

/-- Witness for C4 at a concrete input: two headless services sharing TCP
port 9999 on a sidecar yield a single wildcard listener on that port. -/
theorem buildOutboundTCPListeners_wildcard_unique_witness :
    (∀ s ∈ [({ hostname := "a", loadBalancingDisabled := true,
               ports := [{ name := "tcp-x", port := 9999, protocol := Protocol.tcp }] } : Service),
             { hostname := "b", loadBalancingDisabled := true,
               ports := [{ name := "tcp-y", port := 9999, protocol := Protocol.tcp }] }],
      s.address ≠ WildcardAddress) ∧
    2 ≤ ((outboundTCPPairs
            [{ hostname := "a", loadBalancingDisabled := true,
               ports := [{ name := "tcp-x", port := 9999, protocol := Protocol.tcp }] },
             { hostname := "b", loadBalancingDisabled := true,
               ports := [{ name := "tcp-y", port := 9999, protocol := Protocol.tcp }] }]).filter
          (isWildcardTCPMatch { nodeType := NodeType.sidecar } 9999)).length ∧
    (wildcardFilter 9999 (buildOutboundTCPListeners {} { nodeType := NodeType.sidecar }
          [{ hostname := "a", loadBalancingDisabled := true,
             ports := [{ name := "tcp-x", port := 9999, protocol := Protocol.tcp }] },
           { hostname := "b", loadBalancingDisabled := true,
             ports := [{ name := "tcp-y", port := 9999, protocol := Protocol.tcp }] }]).1).length = 1 :=
  ⟨by decide, by decide,
    (buildOutboundTCPListeners_wildcard_unique {} { nodeType := NodeType.sidecar }
      [{ hostname := "a", loadBalancingDisabled := true,
         ports := [{ name := "tcp-x", port := 9999, protocol := Protocol.tcp }] },
       { hostname := "b", loadBalancingDisabled := true,
         ports := [{ name := "tcp-y", port := 9999, protocol := Protocol.tcp }] }]
      9999 (by decide) (by decide)).2⟩

/-- Stable insertion keeps the list contents, as a permutation. -/
theorem insertSorted_perm {α : Type} (le : α → α → Bool) (x : α) :
    ∀ l : List α, (insertSorted le x l).Perm (x :: l)
  | [] => List.Perm.refl [x]
  | y :: ys => by
    unfold insertSorted
    by_cases h : le x y = true
    · rw [if_pos h]
    · rw [if_neg h]
      exact ((insertSorted_perm le x ys).cons y).trans (List.Perm.swap x y ys)

/-- Insertion sort permutes its input. -/
theorem insertionSort_perm {α : Type} (le : α → α → Bool) :
    ∀ l : List α, (insertionSort le l).Perm l
  | [] => List.Perm.refl []
  | x :: xs =>
    (insertSorted_perm le x (insertionSort le xs)).trans
      ((insertionSort_perm le xs).cons x)

/-- Deduplication yields a sublist of the input. -/
theorem dedupListeners_sublist :
    ∀ (l : List Listener) (seen : List (String × Nat)),
    (dedupListeners l seen).Sublist l
  | [], _ => List.Sublist.refl []
  | x :: rest, seen => by
    unfold dedupListeners
    by_cases h : (x.ip, x.port) ∈ seen
    · rw [if_pos h]
      exact (dedupListeners_sublist rest seen).cons x
    · rw [if_neg h]
      exact (dedupListeners_sublist rest ((x.ip, x.port) :: seen)).cons₂ x

/-- A final listener whose address no earlier listener and no seen entry
holds survives deduplication in final position. -/
theorem dedupListeners_append_last (v : Listener) :
    ∀ (l : List Listener) (seen : List (String × Nat)),
    (∀ x ∈ l, ¬(x.ip = v.ip ∧ x.port = v.port)) →
    (v.ip, v.port) ∉ seen →
    dedupListeners (l ++ [v]) seen = dedupListeners l seen ++ [v]
  | [], seen, h, hs => by
    simp only [List.nil_append]
    unfold dedupListeners
    rw [if_neg hs]
    rfl
  | x :: rest, seen, h, hs => by
    have hx : ¬(x.ip = v.ip ∧ x.port = v.port) := h x (List.mem_cons_self x rest)
    have hrest : ∀ y ∈ rest, ¬(y.ip = v.ip ∧ y.port = v.port) :=
      fun y hy => h y (List.mem_cons_of_mem x hy)
    simp only [List.cons_append]
    unfold dedupListeners
    by_cases hm : (x.ip, x.port) ∈ seen
    · rw [if_pos hm, if_pos hm]
      exact dedupListeners_append_last v rest seen hrest hs
    · rw [if_neg hm, if_neg hm]
      have hs2 : (v.ip, v.port) ∉ (x.ip, x.port) :: seen := by
        intro hmem
        rcases List.mem_cons.mp hmem with heq | hmemseen
        · have := Prod.mk.injEq v.ip v.port x.ip x.port ▸ heq
          exact hx ⟨(Prod.mk.inj heq).1.symm, (Prod.mk.inj heq).2.symm⟩
        · exact hs hmemseen
      rw [dedupListeners_append_last v rest ((x.ip, x.port) :: seen) hrest hs2]
      rfl

/-- buildHTTPListener never sets use_original_dst. -/
theorem buildHTTPListener_useOriginalDst (mesh : MeshConfig) (node : Node)
    (instances : List ServiceInstance) (routeConfig : Option HTTPRouteConfig)
    (ip : String) (port : Nat) (rds : String) (useRemoteAddress : Bool)
    (direction : String) (store : IstioConfigStore) :
    (buildHTTPListener mesh node instances routeConfig ip port rds
      useRemoteAddress direction store).useOriginalDst = false := rfl

/-- buildTCPListener never sets use_original_dst. -/
theorem buildTCPListener_useOriginalDst (cfg : TCPRouteConfig) (ip : String)
    (port : Nat) (protocol : Protocol) :
    (buildTCPListener cfg ip port protocol).useOriginalDst = false := by
  cases protocol <;> rcases cfg with ⟨_ | ⟨r, _ | ⟨r2, rs⟩⟩⟩ <;> rfl

/-- Inbound auth does not touch use_original_dst. -/
theorem mayApplyInboundAuth_useOriginalDst (l : Listener) (mesh : MeshConfig)
    (pol : AuthenticationPolicy) :
    (mayApplyInboundAuth l mesh pol).useOriginalDst = l.useOriginalDst := by
  unfold mayApplyInboundAuth
  split_ifs <;> rfl

/-- Inbound listeners never set use_original_dst. -/
theorem inboundInstanceListener_useOriginalDst (mesh : MeshConfig) (node : Node)
    (instances : List ServiceInstance) (store : IstioConfigStore)
    (inst : ServiceInstance) (l : Listener) (c : Cluster)
    (h : inboundInstanceListener mesh node instances store inst =
      Option.some (l, c)) :
    l.useOriginalDst = false := by
  simp only [inboundInstanceListener] at h
  rcases hp : inst.endpoint.servicePort.protocol <;> rw [hp] at h <;>
    simp only [Option.map_eq_some', Option.some.injEq, Prod.mk.injEq] at h
  case http =>
    obtain ⟨l0, hl0, heq, hceq⟩ := h
    rw [← heq, mayApplyInboundAuth_useOriginalDst, ← hl0]
    rfl
  case http2 =>
    obtain ⟨l0, hl0, heq, hceq⟩ := h
    rw [← heq, mayApplyInboundAuth_useOriginalDst, ← hl0]
    rfl
  case grpc =>
    obtain ⟨l0, hl0, heq, hceq⟩ := h
    rw [← heq, mayApplyInboundAuth_useOriginalDst, ← hl0]
    rfl
  case tcp =>
    obtain ⟨l0, hl0, heq, hceq⟩ := h
    rw [← heq, mayApplyInboundAuth_useOriginalDst, ← hl0]
    split_ifs <;> rfl
  case https =>
    obtain ⟨l0, hl0, heq, hceq⟩ := h
    rw [← heq, mayApplyInboundAuth_useOriginalDst, ← hl0]
    split_ifs <;> rfl
  case mongo =>
    obtain ⟨l0, hl0, heq, hceq⟩ := h
    rw [← heq, mayApplyInboundAuth_useOriginalDst, ← hl0]
    split_ifs <;> rfl
  case redis =>
    obtain ⟨l0, hl0, heq, hceq⟩ := h
    rw [← heq, mayApplyInboundAuth_useOriginalDst, ← hl0]
    split_ifs <;> rfl
  case udp =>
    exact absurd h (by simp)

/-- The wildcard TCP listener never sets use_original_dst. -/
theorem keptWildcardListener_useOriginalDst (mesh : MeshConfig) (node : Node)
    (pr : Service × Port) :
    (keptWildcardListener mesh node pr).useOriginalDst = false := by
  unfold keptWildcardListener
  split_ifs <;> simp [buildTCPListener_useOriginalDst]

/-- Listeners of the inbound fold never set use_original_dst. -/
theorem buildInboundListeners_useOriginalDst (mesh : MeshConfig) (node : Node)
    (instances : List ServiceInstance) (store : IstioConfigStore) :
    ∀ l ∈ (buildInboundListeners mesh node instances store).1,
      l.useOriginalDst = false := by
  have aux : ∀ (insts : List ServiceInstance) (acc : List Listener × List Cluster),
      (∀ l ∈ acc.1, l.useOriginalDst = false) →
      ∀ l ∈ (insts.foldl
        (fun acc inst =>
          match inboundInstanceListener mesh node instances store inst with
          | Option.none => acc
          | Option.some (l, c) => (acc.1 ++ [l], acc.2 ++ [c])) acc).1,
        l.useOriginalDst = false := by
    intro insts
    induction insts with
    | nil => intro acc hacc; exact hacc
    | cons inst rest ih =>
      intro acc hacc
      rw [List.foldl_cons]
      cases hil : inboundInstanceListener mesh node instances store inst with
      | none =>
        exact ih acc hacc
      | some lc =>
        rcases lc with ⟨l0, c0⟩
        refine ih (acc.1 ++ [l0], acc.2 ++ [c0]) ?_
        intro l hl
        rcases List.mem_append.mp hl with hmem | hmem
        · exact hacc l hmem
        · rw [List.mem_singleton.mp hmem]
          exact inboundInstanceListener_useOriginalDst mesh node instances store
            inst l0 c0 hil
  exact aux instances ([], []) (by intro l hl; exact absurd hl (List.not_mem_nil l))

/-- Listeners of the outbound TCP fold never set use_original_dst. -/
theorem buildOutboundTCPListeners_useOriginalDst (mesh : MeshConfig)
    (node : Node) (services : List Service) :
    ∀ l ∈ (buildOutboundTCPListeners mesh node services).1,
      l.useOriginalDst = false := by
  have step : ∀ (st : TCPBuildState) (svc : Service) (sp : Port),
      ∀ l ∈ (outboundTCPPort mesh node st svc sp).listeners,
        l ∈ st.listeners ∨ l.useOriginalDst = false := by
    intro st svc sp l hl
    rw [outboundTCPPort_eq] at hl
    split_ifs at hl
    all_goals try exact Or.inl hl
    all_goals
      rcases List.mem_append.mp hl with hmem | hmem
    all_goals try exact Or.inl hmem
    all_goals rw [List.mem_singleton.mp hmem]
    all_goals
      try exact Or.inr (keptWildcardListener_useOriginalDst mesh node (svc, sp))
    all_goals exact Or.inr (buildTCPListener_useOriginalDst _ _ _ _)
  have aux : ∀ (pairs : List (Service × Port)) (st : TCPBuildState),
      (∀ l ∈ st.listeners, l.useOriginalDst = false) →
      ∀ l ∈ ((pairs.foldl (fun st pr => outboundTCPPort mesh node st pr.1 pr.2) st).listeners),
        l.useOriginalDst = false := by
    intro pairs
    induction pairs with
    | nil => intro st hst; exact hst
    | cons pr rest ih =>
      intro st hst
      rw [List.foldl_cons]
      refine ih (outboundTCPPort mesh node st pr.1 pr.2) ?_
      intro l hl
      rcases step st pr.1 pr.2 l hl with hmem | hfalse
      · exact hst l hmem
      · exact hfalse
  exact aux (outboundTCPPairs services) {}
    (by intro l hl; exact absurd hl (List.not_mem_nil l))

/-- Listeners of the egress TCP builder never set use_original_dst. -/
theorem buildEgressTCPListeners_useOriginalDst (mesh : MeshConfig)
    (node : Node) (store : IstioConfigStore) :
    ∀ l ∈ (buildEgressTCPListeners mesh node store).1,
      l.useOriginalDst = false := by
  unfold buildEgressTCPListeners
  by_cases hr : node.nodeType = NodeType.router
  · rw [if_pos hr]
    intro l hl
    exact absurd hl (List.not_mem_nil l)
  · rw [if_neg hr]
    have aux : ∀ (entries : List (Nat × Protocol × List EgressRule))
        (acc : List Listener × List Cluster),
        (∀ l ∈ acc.1, l.useOriginalDst = false) →
        ∀ l ∈ (entries.foldl
          (fun acc entry =>
            let intPort := entry.1
            let protocol := entry.2.1
            let modelPort : Port :=
              { name := ("external-") ++ toString intPort,
                port := intPort, protocol := protocol }
            let rc := entry.2.2.foldl
              (fun (rc : List TCPRoute × List Cluster) rule =>
                let p := buildEgressTCPRoute rule mesh modelPort
                (rc.1 ++ [p.1], rc.2 ++ [p.2]))
              ([], [])
            (acc.1 ++ [buildTCPListener ⟨rc.1⟩ WildcardAddress intPort protocol],
             acc.2 ++ rc.2)) acc).1,
          l.useOriginalDst = false := by
      intro entries
      induction entries with
      | nil => intro acc hacc; exact hacc
      | cons entry rest ih =>
        intro acc hacc
        rw [List.foldl_cons]
        refine ih _ ?_
        intro l hl
        rcases List.mem_append.mp hl with hmem | hmem
        · exact hacc l hmem
        · rw [List.mem_singleton.mp hmem]
          exact buildTCPListener_useOriginalDst _ _ _ _
    exact aux _ ([], []) (by intro l hl; exact absurd hl (List.not_mem_nil l))

/-- Listeners of the outbound builder never set use_original_dst. -/
theorem buildOutboundListeners_useOriginalDst (mesh : MeshConfig) (node : Node)
    (instances : List ServiceInstance) (services : List Service)
    (store : IstioConfigStore) :
    ∀ l ∈ (buildOutboundListeners mesh node instances services store).1,
      l.useOriginalDst = false := by
  unfold buildOutboundListeners
  have aux : ∀ (cfgs : HTTPRouteConfigs) (acc : List Listener × List Cluster),
      (∀ l ∈ acc.1, l.useOriginalDst = false) →
      ∀ l ∈ (cfgs.foldl
        (fun acc pc =>
          let useRemoteAddress := node.nodeType == NodeType.router
          let operation :=
            if node.nodeType = NodeType.router then IngressTraceOperation
            else EgressTraceOperation
          let l := buildHTTPListener mesh node instances (Option.some pc.2)
            WildcardAddress pc.1 (toString pc.1) useRemoteAddress operation store
          (acc.1 ++ [l], acc.2 ++ pc.2.clustersOf)) acc).1,
        l.useOriginalDst = false := by
    intro cfgs
    induction cfgs with
    | nil => intro acc hacc; exact hacc
    | cons pc rest ih =>
      intro acc hacc
      rw [List.foldl_cons]
      refine ih _ ?_
      intro l hl
      rcases List.mem_append.mp hl with hmem | hmem
      · exact hacc l hmem
      · rw [List.mem_singleton.mp hmem]
        exact buildHTTPListener_useOriginalDst mesh node instances _ _ _ _ _ _ store
  refine aux _ _ ?_
  intro l hl
  rcases List.mem_append.mp hl with hmem | hmem
  · exact buildOutboundTCPListeners_useOriginalDst mesh node services l hmem
  · exact buildEgressTCPListeners_useOriginalDst mesh node store l hmem

/-- Management listeners never set use_original_dst. -/
theorem buildMgmtPortListeners_useOriginalDst (mesh : MeshConfig)
    (managementPorts : List Port) (managementIP : String) :
    ∀ l ∈ (buildMgmtPortListeners mesh managementPorts managementIP).1,
      l.useOriginalDst = false := by
  unfold buildMgmtPortListeners
  have aux : ∀ (ports : List Port) (acc : List Listener × List Cluster),
      (∀ l ∈ acc.1, l.useOriginalDst = false) →
      ∀ l ∈ (ports.foldl
        (fun acc mPort =>
          match mPort.protocol with
          | Protocol.udp => acc
          | _ =>
            let cluster := buildInboundCluster mPort.port Protocol.tcp mesh.connectTimeoutMS
            let listener := buildTCPListener
              ⟨[buildTCPRoute cluster [managementIP]]⟩
              managementIP mPort.port Protocol.tcp
            (acc.1 ++ [listener], acc.2 ++ [cluster])) acc).1,
        l.useOriginalDst = false := by
    intro ports
    induction ports with
    | nil => intro acc hacc; exact hacc
    | cons mPort rest ih =>
      intro acc hacc
      rw [List.foldl_cons]
      rcases hp : mPort.protocol <;>
        refine ih _ ?_ <;>
        try exact hacc
      all_goals
        intro l hl
        rcases List.mem_append.mp hl with hmem | hmem
        · exact hacc l hmem
        · rw [List.mem_singleton.mp hmem]
          exact buildTCPListener_useOriginalDst _ _ _ _
  exact aux _ ([], []) (by intro l hl; exact absurd hl (List.not_mem_nil l))

/-- Every listener emitted by the management append loop comes from the
base set or from the management listeners. -/
theorem appendMgmtLoop_mem :
    ∀ (pairs : List (Listener × Cluster)) (ls : List Listener)
      (cs : List Cluster) (l : Listener),
    l ∈ (appendMgmtLoop ls cs pairs).1 →
    l ∈ ls ∨ ∃ pr ∈ pairs, l = pr.1
  | [], ls, cs, l, hl => Or.inl hl
  | (m, c) :: rest, ls, cs, l, hl => by
    unfold appendMgmtLoop at hl
    cases hga : getByAddress ls m.ip m.port with
    | some x =>
      rw [hga] at hl
      rcases appendMgmtLoop_mem rest ls cs l hl with hmem | ⟨pr, hpr, heq⟩
      · exact Or.inl hmem
      · exact Or.inr ⟨pr, List.mem_cons_of_mem (m, c) hpr, heq⟩
    | none =>
      rw [hga] at hl
      rcases appendMgmtLoop_mem rest (ls ++ [m]) (cs ++ [c]) l hl with hmem | ⟨pr, hpr, heq⟩
      · rcases List.mem_append.mp hmem with hmem2 | hmem2
        · exact Or.inl hmem2
        · exact Or.inr ⟨(m, c), List.mem_cons_self (m, c) rest,
            List.mem_singleton.mp hmem2⟩
      · exact Or.inr ⟨pr, List.mem_cons_of_mem (m, c) hpr, heq⟩

/-- No pre-redirection sidecar listener sets use_original_dst. -/
theorem sidecarPre_useOriginalDst (mesh : MeshConfig) (node : Node)
    (instances : List ServiceInstance) (services : List Service)
    (managementPorts : List Port) (store : IstioConfigStore) :
    ∀ l ∈ (sidecarPreListenersClusters mesh node instances services
      managementPorts store).1, l.useOriginalDst = false := by
  intro l hl
  unfold sidecarPreListenersClusters at hl
  rcases appendMgmtLoop_mem _ _ _ l hl with hin | ⟨pr, hpr, heq⟩
  · rcases List.mem_append.mp hin with h | h
    · exact buildInboundListeners_useOriginalDst mesh node instances store l h
    · exact buildOutboundListeners_useOriginalDst mesh node instances services store l h
  · obtain ⟨m, c⟩ := pr
    have hm : m ∈ (buildMgmtPortListeners mesh managementPorts node.ipAddress).1 :=
      (List.of_mem_zip hpr).1
    rw [heq]
    exact buildMgmtPortListeners_useOriginalDst mesh managementPorts node.ipAddress m hm

/-- C6 counterexample: with ProxyListenPort 15001 and ProxyHttpPort 15002
on a sidecar, the returned set contains the HTTP-proxy listener, which is
not the virtual listener yet has BindToPort true, refuting the claim that
every listener other than the virtual one has BindToPort false. -/
theorem virtualListenerBindCounterexample :
    ∃ l ∈ (buildSidecarListenersClusters
        { proxyListenPort := 15001, proxyHttpPort := 15002 } [] [] []
        { nodeType := NodeType.sidecar } {}).1,
      l ≠ virtualListener 15001 ∧ l.bindToPort = true := by
  decide

/-- C6 (amended): for every Sidecar node with mesh.ProxyListenPort > 0 and
mesh.ProxyHttpPort = 0, provided no inbound, outbound or management
listener already occupies (0.0.0.0, ProxyListenPort), the returned set
contains the virtual catch-all listener at tcp://0.0.0.0:ProxyListenPort
with UseOriginalDst and BindToPort true, it is the only listener with
UseOriginalDst, and every other listener has BindToPort = false.  (With
ProxyHttpPort > 0 the HTTP-proxy listener is additionally appended with
BindToPort = true, as the counterexample shows.) -/
theorem sidecar_virtual_listener (mesh : MeshConfig) (node : Node)
    (instances : List ServiceInstance) (services : List Service)
    (managementPorts : List Port) (store : IstioConfigStore)
    (h1 : node.nodeType = NodeType.sidecar)
    (h2 : 0 < mesh.proxyListenPort)
    (h3 : mesh.proxyHttpPort = 0)
    (h4 : ∀ l ∈ (sidecarPreListenersClusters mesh node instances
        (sortServices services) managementPorts store).1,
      ¬(l.ip = WildcardAddress ∧ l.port = mesh.proxyListenPort)) :
    virtualListener mesh.proxyListenPort ∈
      (buildSidecarListenersClusters mesh instances services managementPorts
        node store).1 ∧
    ((buildSidecarListenersClusters mesh instances services managementPorts
        node store).1.countP (fun l => l.useOriginalDst)) = 1 ∧
    (∀ l ∈ (buildSidecarListenersClusters mesh instances services
        managementPorts node store).1,
      l ≠ virtualListener mesh.proxyListenPort →
      l.bindToPort = false ∧ l.useOriginalDst = false) := by
  have hns : ¬(node.nodeType = NodeType.router) := by
    rw [h1]
    intro hcontra
    exact absurd hcontra (by simp)
  have hout : (buildSidecarListenersClusters mesh instances services
      managementPorts node store).1 =
      normalizeListeners
        ((sidecarPreListenersClusters mesh node instances (sortServices services)
          managementPorts store).1.map (fun l => { l with bindToPort := false }) ++
         [virtualListener mesh.proxyListenPort]) := by
    simp [buildSidecarListenersClusters, hns, h2, h3]
  have hpre := sidecarPre_useOriginalDst mesh node instances (sortServices services)
    managementPorts store
  have hmap_orig : ∀ x ∈ (sidecarPreListenersClusters mesh node instances
      (sortServices services) managementPorts store).1.map
        (fun l => { l with bindToPort := false }),
      x.useOriginalDst = false := by
    intro x hx
    obtain ⟨y, hy, heq⟩ := List.mem_map.mp hx
    rw [← heq]
    exact hpre y hy
  have hmap_addr : ∀ x ∈ (sidecarPreListenersClusters mesh node instances
      (sortServices services) managementPorts store).1.map
        (fun l => { l with bindToPort := false }),
      ¬(x.ip = (virtualListener mesh.proxyListenPort).ip ∧
        x.port = (virtualListener mesh.proxyListenPort).port) := by
    intro x hx
    obtain ⟨y, hy, heq⟩ := List.mem_map.mp hx
    rw [← heq]
    exact h4 y hy
  have hded : dedupListeners
      ((sidecarPreListenersClusters mesh node instances (sortServices services)
        managementPorts store).1.map (fun l => { l with bindToPort := false }) ++
       [virtualListener mesh.proxyListenPort]) [] =
      dedupListeners
        ((sidecarPreListenersClusters mesh node instances (sortServices services)
          managementPorts store).1.map (fun l => { l with bindToPort := false })) [] ++
      [virtualListener mesh.proxyListenPort] :=
    dedupListeners_append_last _ _ [] hmap_addr (by simp)
  have hperm := insertionSort_perm
    (fun a b => strLt a.ip b.ip || (a.ip == b.ip && a.port ≤ b.port))
    (dedupListeners
      ((sidecarPreListenersClusters mesh node instances (sortServices services)
        managementPorts store).1.map (fun l => { l with bindToPort := false }) ++
       [virtualListener mesh.proxyListenPort]) [])
  have hdedmem : ∀ x, x ∈ (buildSidecarListenersClusters mesh instances services
      managementPorts node store).1 ↔
      x ∈ dedupListeners
        ((sidecarPreListenersClusters mesh node instances (sortServices services)
          managementPorts store).1.map (fun l => { l with bindToPort := false }) ++
         [virtualListener mesh.proxyListenPort]) [] := by
    intro x
    rw [hout]
    exact hperm.mem_iff
  refine ⟨?_, ?_, ?_⟩
  · rw [hdedmem, hded]
    exact List.mem_append_right _ (List.mem_singleton_self _)
  · rw [hout]
    unfold normalizeListeners
    rw [hperm.countP_eq, hded, List.countP_append]
    have hzero : List.countP (fun l => l.useOriginalDst)
        (dedupListeners
          ((sidecarPreListenersClusters mesh node instances (sortServices services)
            managementPorts store).1.map (fun l => { l with bindToPort := false })) []) = 0 := by
      rw [List.countP_eq_zero]
      intro x hx
      have hx2 := (dedupListeners_sublist _ []).mem hx
      simp [hmap_orig x hx2]
    rw [hzero]
    simp [virtualListener]
  · intro l hl hne
    have hl2 := (hdedmem l).mp hl
    rw [hded] at hl2
    rcases List.mem_append.mp hl2 with hmem | hmem
    · have hmem2 := (dedupListeners_sublist _ []).mem hmem
      obtain ⟨y, hy, heq⟩ := List.mem_map.mp hmem2
      constructor
      · rw [← heq]
      · rw [← heq]
        exact hpre y hy
    · exact absurd (List.mem_singleton.mp hmem) hne

/-- Witness for C6 at a concrete input: a sidecar with ProxyListenPort
15001, no HTTP proxy port, and no services or instances. -/
theorem sidecar_virtual_listener_witness :
    (({ nodeType := NodeType.sidecar } : Node).nodeType = NodeType.sidecar) ∧
    (0 < ({ proxyListenPort := 15001 } : MeshConfig).proxyListenPort) ∧
    (virtualListener 15001 ∈
      (buildSidecarListenersClusters { proxyListenPort := 15001 } [] [] []
        { nodeType := NodeType.sidecar } {}).1 ∧
     ((buildSidecarListenersClusters { proxyListenPort := 15001 } [] [] []
        { nodeType := NodeType.sidecar } {}).1.countP
        (fun l => l.useOriginalDst)) = 1 ∧
     (∀ l ∈ (buildSidecarListenersClusters { proxyListenPort := 15001 } [] [] []
        { nodeType := NodeType.sidecar } {}).1,
       l ≠ virtualListener 15001 →
       l.bindToPort = false ∧ l.useOriginalDst = false)) :=
  ⟨rfl, by decide,
    sidecar_virtual_listener { proxyListenPort := 15001 }
      { nodeType := NodeType.sidecar } [] [] [] {} rfl (by decide) rfl
      (by decide)⟩

/-- Address lookup across an appended singleton. -/
theorem getByAddress_append_single (ls : List Listener) (m : Listener)
    (ip : String) (port : Nat) :
    getByAddress (ls ++ [m]) ip port =
      (match getByAddress ls ip port with
       | Option.some l => Option.some l
       | Option.none =>
         if m.ip == ip && m.port == port then Option.some m else Option.none) := by
  induction ls with
  | nil =>
    simp only [List.nil_append, getByAddress, List.find?]
    cases h : (m.ip == ip && m.port == port) <;> simp [h]
  | cons a ls ih =>
    simp only [getByAddress, List.cons_append, List.find?_cons] at ih ⊢
    by_cases h : (a.ip == ip && a.port == port) = true
    · rw [h]
    · rw [Bool.not_eq_true] at h
      rw [h]
      exact ih

/-- The filtered projection of a zip whose condition only reads the first
component. -/
theorem filter_fst_zip {α β : Type} (q : α → Bool) :
    ∀ (l1 : List α) (l2 : List β), l1.length = l2.length →
    (((l1.zip l2).filter (fun mc => q mc.1)).map Prod.fst = l1.filter q ∧
     ((l1.zip l2).filter (fun mc => q mc.1)).map Prod.snd =
       (l1.zip l2).filterMap (fun mc => if q mc.1 then Option.some mc.2 else Option.none))
  | [], [], _ => ⟨rfl, rfl⟩
  | [], b :: bs, h => by simp at h
  | a :: as, [], h => by simp at h
  | a :: as, b :: bs, h => by
    have hlen : as.length = bs.length := by simpa using h
    obtain ⟨ih1, ih2⟩ := filter_fst_zip q as bs hlen
    by_cases hq : q a = true
    · simp [List.filter_cons, hq, ih1, ih2]
    · rw [Bool.not_eq_true] at hq
      simp [List.filter_cons, hq, ih1, ih2]

/-- The management append loop of config.go equals appending the
management listeners whose address does not collide with the base set,
provided the management addresses are pairwise distinct. -/
theorem appendMgmtLoop_filter :
    ∀ (pairs : List (Listener × Cluster)) (ls : List Listener) (cs : List Cluster),
    List.Pairwise (fun a b => ¬(a.1.ip = b.1.ip ∧ a.1.port = b.1.port)) pairs →
    appendMgmtLoop ls cs pairs =
      (ls ++ (pairs.filter
          (fun mc => (getByAddress ls mc.1.ip mc.1.port).isNone)).map Prod.fst,
       cs ++ (pairs.filter
          (fun mc => (getByAddress ls mc.1.ip mc.1.port).isNone)).map Prod.snd)
  | [], ls, cs, _ => by simp [appendMgmtLoop]
  | (m, c) :: rest, ls, cs, hpw => by
    obtain ⟨hhead, htail⟩ := List.pairwise_cons.mp hpw
    unfold appendMgmtLoop
    cases hga : getByAddress ls m.ip m.port with
    | some x =>
      rw [appendMgmtLoop_filter rest ls cs htail]
      have hcond : (fun (mc : Listener × Cluster) =>
          (getByAddress ls mc.1.ip mc.1.port).isNone) (m, c) = false := by
        simp [hga]
      simp [List.filter_cons, hcond]
    | none =>
      rw [appendMgmtLoop_filter rest (ls ++ [m]) (cs ++ [c]) htail]
      have hflt : rest.filter
          (fun mc => (getByAddress (ls ++ [m]) mc.1.ip mc.1.port).isNone) =
          rest.filter (fun mc => (getByAddress ls mc.1.ip mc.1.port).isNone) := by
        apply List.filter_congr
        intro mc hmc
        rw [getByAddress_append_single]
        have hne : ¬(m.ip = mc.1.ip ∧ m.port = mc.1.port) := hhead mc hmc
        have hbool : (m.ip == mc.1.ip && m.port == mc.1.port) = false := by
          by_cases hip : m.ip = mc.1.ip
          · have hp : m.port ≠ mc.1.port := fun hp => hne ⟨hip, hp⟩
            simp [hip, hp]
          · simp [hip]
        cases hga2 : getByAddress ls mc.1.ip mc.1.port with
        | some y => rfl
        | none => simp [hbool]
      have hcond : (fun (mc : Listener × Cluster) =>
          (getByAddress ls mc.1.ip mc.1.port).isNone) (m, c) = true := by
        simp [hga]
      rw [hflt]
      simp only [List.filter_cons, hcond, if_true]
      simp [List.append_assoc]

/-- The listener and cluster lists of the management builder grow in
lockstep. -/
theorem buildMgmtPortListeners_length (mesh : MeshConfig)
    (managementPorts : List Port) (managementIP : String) :
    (buildMgmtPortListeners mesh managementPorts managementIP).1.length =
      (buildMgmtPortListeners mesh managementPorts managementIP).2.length := by
  unfold buildMgmtPortListeners
  have aux : ∀ (ports : List Port) (acc : List Listener × List Cluster),
      acc.1.length = acc.2.length →
      (ports.foldl
        (fun acc mPort =>
          match mPort.protocol with
          | Protocol.udp => acc
          | _ =>
            let cluster := buildInboundCluster mPort.port Protocol.tcp mesh.connectTimeoutMS
            let listener := buildTCPListener
              ⟨[buildTCPRoute cluster [managementIP]]⟩
              managementIP mPort.port Protocol.tcp
            (acc.1 ++ [listener], acc.2 ++ [cluster])) acc).1.length =
      (ports.foldl
        (fun acc mPort =>
          match mPort.protocol with
          | Protocol.udp => acc
          | _ =>
            let cluster := buildInboundCluster mPort.port Protocol.tcp mesh.connectTimeoutMS
            let listener := buildTCPListener
              ⟨[buildTCPRoute cluster [managementIP]]⟩
              managementIP mPort.port Protocol.tcp
            (acc.1 ++ [listener], acc.2 ++ [cluster])) acc).2.length := by
    intro ports
    induction ports with
    | nil => intro acc h; exact h
    | cons mPort rest ih =>
      intro acc h
      rcases hp : mPort.protocol <;>
        refine ih _ ?_ <;> simp [hp, h]
  exact aux managementPorts ([], []) rfl

/-- C7: for a sidecar with mesh.ProxyListenPort > 0 and pairwise-distinct
management addresses, the pre-redirection listener set is exactly the
inbound and outbound listeners followed by those management listeners
whose (address, port) does not equal the address of any already-built
inbound or outbound listener; the clusters of colliding management
listeners are dropped with them; and the final output is the
normalization of that set with BindToPort cleared, the virtual listener,
and the optional HTTP-proxy listener — so collisions are resolved by
omission, never by an error. -/
theorem sidecar_mgmt_listener_inclusion (mesh : MeshConfig) (node : Node)
    (instances : List ServiceInstance) (services : List Service)
    (managementPorts : List Port) (store : IstioConfigStore)
    (h1 : node.nodeType = NodeType.sidecar)
    (h2 : 0 < mesh.proxyListenPort)
    (hd : List.Pairwise (fun a b => ¬(a.ip = b.ip ∧ a.port = b.port))
      (buildMgmtPortListeners mesh managementPorts node.ipAddress).1) :
    (sidecarPreListenersClusters mesh node instances (sortServices services)
        managementPorts store).1 =
      ((buildInboundListeners mesh node instances store).1 ++
        (buildOutboundListeners mesh node instances (sortServices services) store).1) ++
      (buildMgmtPortListeners mesh managementPorts node.ipAddress).1.filter
        (fun m => (getByAddress
          ((buildInboundListeners mesh node instances store).1 ++
            (buildOutboundListeners mesh node instances (sortServices services) store).1)
          m.ip m.port).isNone) ∧
    (sidecarPreListenersClusters mesh node instances (sortServices services)
        managementPorts store).2 =
      ((buildInboundListeners mesh node instances store).2 ++
        (buildOutboundListeners mesh node instances (sortServices services) store).2) ++
      ((buildMgmtPortListeners mesh managementPorts node.ipAddress).1.zip
        (buildMgmtPortListeners mesh managementPorts node.ipAddress).2).filterMap
        (fun mc => if (getByAddress
            ((buildInboundListeners mesh node instances store).1 ++
              (buildOutboundListeners mesh node instances (sortServices services) store).1)
            mc.1.ip mc.1.port).isNone then Option.some mc.2 else Option.none) ∧
    (buildSidecarListenersClusters mesh instances services managementPorts
        node store).1 =
      normalizeListeners
        ((sidecarPreListenersClusters mesh node instances (sortServices services)
            managementPorts store).1.map (fun l => { l with bindToPort := false }) ++
         [virtualListener mesh.proxyListenPort] ++
         (if 0 < mesh.proxyHttpPort then
           [buildHTTPListener mesh node instances Option.none LocalhostAddress
             mesh.proxyHttpPort RDSAll false EgressTraceOperation store]
          else [])) := by
  have hns : ¬(node.nodeType = NodeType.router) := by
    rw [h1]
    intro hcontra
    exact absurd hcontra (by simp)
  have hlen := buildMgmtPortListeners_length mesh managementPorts node.ipAddress
  have hzip : List.map Prod.fst
      ((buildMgmtPortListeners mesh managementPorts node.ipAddress).1.zip
        (buildMgmtPortListeners mesh managementPorts node.ipAddress).2) =
      (buildMgmtPortListeners mesh managementPorts node.ipAddress).1 :=
    List.map_fst_zip _ _ (Nat.le_of_eq hlen)
  have hdzip : List.Pairwise (fun (a b : Listener × Cluster) =>
      ¬(a.1.ip = b.1.ip ∧ a.1.port = b.1.port))
      ((buildMgmtPortListeners mesh managementPorts node.ipAddress).1.zip
        (buildMgmtPortListeners mesh managementPorts node.ipAddress).2) := by
    have := hd
    rw [← hzip] at this
    exact List.pairwise_map.mp this
  have hmain := appendMgmtLoop_filter
    ((buildMgmtPortListeners mesh managementPorts node.ipAddress).1.zip
      (buildMgmtPortListeners mesh managementPorts node.ipAddress).2)
    ((buildInboundListeners mesh node instances store).1 ++
      (buildOutboundListeners mesh node instances (sortServices services) store).1)
    ((buildInboundListeners mesh node instances store).2 ++
      (buildOutboundListeners mesh node instances (sortServices services) store).2)
    hdzip
  obtain ⟨hfst, hsnd⟩ := filter_fst_zip
    (fun m => (getByAddress
      ((buildInboundListeners mesh node instances store).1 ++
        (buildOutboundListeners mesh node instances (sortServices services) store).1)
      m.ip m.port).isNone)
    (buildMgmtPortListeners mesh managementPorts node.ipAddress).1
    (buildMgmtPortListeners mesh managementPorts node.ipAddress).2 hlen
  have hpre : sidecarPreListenersClusters mesh node instances (sortServices services)
      managementPorts store =
      (((buildInboundListeners mesh node instances store).1 ++
          (buildOutboundListeners mesh node instances (sortServices services) store).1) ++
        (buildMgmtPortListeners mesh managementPorts node.ipAddress).1.filter
          (fun m => (getByAddress
            ((buildInboundListeners mesh node instances store).1 ++
              (buildOutboundListeners mesh node instances (sortServices services) store).1)
            m.ip m.port).isNone),
       ((buildInboundListeners mesh node instances store).2 ++
          (buildOutboundListeners mesh node instances (sortServices services) store).2) ++
        ((buildMgmtPortListeners mesh managementPorts node.ipAddress).1.zip
          (buildMgmtPortListeners mesh managementPorts node.ipAddress).2).filterMap
          (fun mc => if (getByAddress
              ((buildInboundListeners mesh node instances store).1 ++
                (buildOutboundListeners mesh node instances (sortServices services) store).1)
              mc.1.ip mc.1.port).isNone then Option.some mc.2 else Option.none)) := by
    unfold sidecarPreListenersClusters
    rw [hmain, hfst, hsnd]
  refine ⟨by rw [hpre], by rw [hpre], ?_⟩
  by_cases hphp : 0 < mesh.proxyHttpPort
  · have hb : (NodeType.sidecar == NodeType.router) = false := by decide
    simp only [buildSidecarListenersClusters, if_neg hns, if_pos h2, if_pos hphp, h1]
    simp [List.append_assoc, hb]
  · simp only [buildSidecarListenersClusters, if_neg hns, if_pos h2, if_neg hphp]
    simp

/-- Witness for C7 at a concrete input: one TCP management port on a
sidecar with no services, so the management listener does not collide and
is appended. -/
theorem sidecar_mgmt_listener_inclusion_witness :
    (List.Pairwise (fun (a b : Listener) => ¬(a.ip = b.ip ∧ a.port = b.port))
      (buildMgmtPortListeners { proxyListenPort := 15001 }
        [{ name := "mgmt-1", port := 8888, protocol := Protocol.tcp }]
        ("10.1.1.1")).1) ∧
    ((sidecarPreListenersClusters { proxyListenPort := 15001 }
        { nodeType := NodeType.sidecar, ipAddress := "10.1.1.1" } []
        (sortServices [])
        [{ name := "mgmt-1", port := 8888, protocol := Protocol.tcp }] {}).1 =
      ((buildInboundListeners { proxyListenPort := 15001 }
          { nodeType := NodeType.sidecar, ipAddress := "10.1.1.1" } [] {}).1 ++
        (buildOutboundListeners { proxyListenPort := 15001 }
          { nodeType := NodeType.sidecar, ipAddress := "10.1.1.1" } []
          (sortServices []) {}).1) ++
      (buildMgmtPortListeners { proxyListenPort := 15001 }
        [{ name := "mgmt-1", port := 8888, protocol := Protocol.tcp }]
        ("10.1.1.1")).1.filter
        (fun m => (getByAddress
          ((buildInboundListeners { proxyListenPort := 15001 }
              { nodeType := NodeType.sidecar, ipAddress := "10.1.1.1" } [] {}).1 ++
            (buildOutboundListeners { proxyListenPort := 15001 }
              { nodeType := NodeType.sidecar, ipAddress := "10.1.1.1" } []
              (sortServices []) {}).1)
          m.ip m.port).isNone)) :=
  ⟨by decide,
    (sidecar_mgmt_listener_inclusion { proxyListenPort := 15001 }
      { nodeType := NodeType.sidecar, ipAddress := "10.1.1.1" } [] []
      [{ name := "mgmt-1", port := 8888, protocol := Protocol.tcp }] {}
      rfl (by decide) (by decide)).1⟩

end IstioEnvoy
